import Mathlib

/-!
# Behavioral biometric verification engine: a shallow embedding

This file embeds the behavioral-biometric engine of the Zenith iD portal
(`backend/biometrics/services/behavioral_analyzer.py`,
`backend/biometrics/services/web_behavior_analyzer.py` and the decision mapping in
`backend/biometrics/views.py`) and proves properties of the embedded code.

Modeling conventions:
* Python floats are modeled as rationals (`ℚ`); all constants in the source
  (weights `0.5/0.3/0.2/...`, thresholds `0.2/0.4/...`) are exact decimals.
* Python dictionaries are association lists (`List (String × Value)`); lookup
  takes the first matching key.  Dictionaries built by Python have no duplicate
  keys, but the model is total on all association lists.
* A raised (and propagating) Python exception is modeled as `Option.none`; the
  source's `try/except` handlers become `match`es on the `Option`.
* `statistics.stdev` returns the square root of the sample variance.  Square
  roots do not stay in `ℚ`, so the `*_std` feature slots carry the sample
  variance (`stdev²`) instead, and the single comparison of a stdev against a
  threshold in the source (`mouse_speed_std < 0.1`) is modeled as the
  equivalent comparison of the variance against the squared threshold
  (`< 0.01`): `sqrt` is strictly monotone on nonnegatives, so the two
  predicates agree pointwise.
* `hashlib.sha256(...).hexdigest()` is an uninterpreted parameter
  `hash : String → String` of the signature builders; every property proved
  here holds for an arbitrary deterministic hash function.
* Python `set`s are duplicate-free lists; CPython's set iteration order is
  unspecified (it depends on the per-process string hash seed), so the model
  fixes first-insertion order as the canonical enumeration.
-/

/-- A Python value as consumed by the analyzers: `None`, booleans, numbers
(ints and floats collapsed into `ℚ`), strings, lists, and dicts as
association lists in insertion order. -/
inductive Value where
  | null
  | bool (b : Bool)
  | num (q : ℚ)
  | str (s : String)
  | list (l : List Value)
  | dict (d : List (String × Value))

/-- Entry list of a Python dict, in insertion order. -/
abbrev Entries := List (String × Value)

/-- Python truthiness (`bool(v)`): `None`, `False`, `0`, `''`, `[]`, `{}` are falsy. -/
def Value.truthy : Value → Bool
  | .null => false
  | .bool b => b
  | .num q => q != 0
  | .str s => !s.isEmpty
  | .list l => !l.isEmpty
  | .dict d => !d.isEmpty

/-- Whether the value is a Python dict (`isinstance(v, dict)`). -/
def Value.isDict : Value → Bool
  | .dict _ => true
  | _ => false

/-- Whether the value is hashable (usable as a set element / dict key probe).
Lists and dicts are unhashable; using one raises `TypeError`. -/
def Value.hashable : Value → Bool
  | .list _ => false
  | .dict _ => false
  | _ => true

/-- Numeric coercion used by arithmetic and `statistics.mean`: Python `bool`
is an `int` subtype (`True == 1`), every other non-number raises (`none`). -/
def Value.toNum : Value → Option ℚ
  | .bool b => some (if b then 1 else 0)
  | .num q => some q
  | _ => none

/-- First-match lookup in a dict's entry list. -/
def lookupFirst (k : String) : Entries → Option Value
  | [] => none
  | e :: es => if e.1 = k then some e.2 else lookupFirst k es

/-- Python `v.get(k, dv)`: `none` models the `AttributeError` raised when `v`
is not a dict. -/
def Value.getD (v : Value) (k : String) (dv : Value) : Option Value :=
  match v with
  | .dict d => some ((lookupFirst k d).getD dv)
  | _ => none

/-- Python `v.get(k)` (default `None`). -/
def Value.getN (v : Value) (k : String) : Option Value := v.getD k .null

/-- Python subscript `v[k]` with a string key: `KeyError` on a missing key and
`TypeError` on non-dict containers are both `none`. -/
def Value.sub (v : Value) (k : String) : Option Value :=
  match v with
  | .dict d => lookupFirst k d
  | _ => none

/-- Python `v[0]`: head of a list (`IndexError` on empty), first character of a
string, `KeyError`/`TypeError` (`none`) otherwise (the model's dict keys are
strings, so an integer subscript on a dict always raises). -/
def Value.index0 : Value → Option Value
  | .list (h :: _) => some h
  | .str s =>
    match s.data with
    | c :: _ => some (.str (String.mk [c]))
    | [] => none
  | _ => none

/-- Python iteration `for x in v`: lists yield elements, strings yield
one-character strings, dicts yield their keys; other values raise. -/
def Value.pyIter : Value → Option (List Value)
  | .list l => some l
  | .str s => some (s.data.map (fun c => .str (String.mk [c])))
  | .dict d => some (d.map (fun e => .str e.1))
  | _ => none

/-- Python `len(v)`: defined for strings, lists and dicts, raises otherwise. -/
def Value.pyLen : Value → Option ℕ
  | .str s => some s.length
  | .list l => some l.length
  | .dict d => some d.length
  | _ => none

/-- Python `v.items()`: only dicts have it. -/
def Value.pyItems : Value → Option Entries
  | .dict d => some d
  | _ => none

/-- Substring test, modeling Python `pat in s` on strings. -/
def strContains (s pat : String) : Bool :=
  s.data.tails.any (fun tl => pat.data.isPrefixOf tl)

/-- Code-point-wise lexicographic order on `ℕ`-lists (Bool-valued). -/
def lexLe : List ℕ → List ℕ → Bool
  | [], _ => true
  | _ :: _, [] => false
  | x :: xs, y :: ys => if x < y then true else if y < x then false else lexLe xs ys

/-- Lexicographic code-point order on strings, as used by `json.dumps(...,
sort_keys=True)` to sort dict keys. -/
def strLe (a b : String) : Bool := lexLe (a.data.map Char.toNat) (b.data.map Char.toNat)

/-- Insert an entry into a key-sorted entry list.  An entry is placed in front
of entries with an equal key, so first-match lookup is preserved. -/
def insertByKey (e : String × Value) : Entries → Entries
  | [] => [e]
  | f :: fs => if strLe e.1 f.1 then e :: f :: fs else f :: insertByKey e fs

/-- Sort a dict's entries by key (insertion sort). -/
def sortByKey : Entries → Entries
  | [] => []
  | e :: es => insertByKey e (sortByKey es)

mutual
/-- Canonical form of a value: every dict's entries recursively sorted by key.
Two Python dicts holding the same content with keys inserted in different
orders have the same canonical form; `json.dumps(..., sort_keys=True)`
serializes a value through exactly this canonicalization. -/
def Value.canon : Value → Value
  | .null => .null
  | .bool b => .bool b
  | .num q => .num q
  | .str s => .str s
  | .list l => .list (canonList l)
  | .dict d => .dict (sortByKey (canonEntries d))

/-- `Value.canon` mapped over a list of values. -/
def canonList : List Value → List Value
  | [] => []
  | v :: vs => Value.canon v :: canonList vs

/-- `Value.canon` mapped over the values of an entry list. -/
def canonEntries : Entries → Entries
  | [] => []
  | e :: es => (e.1, Value.canon e.2) :: canonEntries es
end

mutual
/-- Structural Boolean equality on values. -/
def Value.beq : Value → Value → Bool
  | .null, .null => true
  | .bool a, .bool b => a == b
  | .num a, .num b => a == b
  | .str a, .str b => a == b
  | .list l, .list m => beqList l m
  | .dict d, .dict e => beqEntries d e
  | _, _ => false

/-- Pointwise `Value.beq` on lists. -/
def beqList : List Value → List Value → Bool
  | [], [] => true
  | v :: vs, w :: ws => Value.beq v w && beqList vs ws
  | _, _ => false

/-- Pointwise key/value equality on entry lists. -/
def beqEntries : Entries → Entries → Bool
  | [], [] => true
  | e :: es, f :: fs => e.1 == f.1 && Value.beq e.2 f.2 && beqEntries es fs
  | _, _ => false
end

/-- Python `==` on values.  Python dict equality ignores key order, which the
canonicalization captures.  (Python additionally equates `True` with `1`;
bool/number cross-equality is never exercised by the embedded code paths.) -/
def pyEq (a b : Value) : Bool := Value.beq a.canon b.canon

/-- Python `x in container`: key membership for dicts (unhashable probes
raise), `==`-membership for lists, substring test for strings; other
containers raise. -/
def pyContains (container x : Value) : Option Bool :=
  match container with
  | .dict d => if x.hashable then some (d.any (fun e => pyEq x (.str e.1))) else none
  | .list l => some (l.any (fun e => pyEq x e))
  | .str s =>
    match x with
    | .str t => some (strContains s t)
    | _ => none
  | _ => none

mutual
/-- Deterministic serialization of a value, modeling the canonical string
produced by `json.dumps` (the exact character syntax is irrelevant to the
properties proved here; only well-definedness is used). -/
def serializeValue : Value → String
  | .null => "null"
  | .bool b => if b then "true" else "false"
  | .num q => toString q.num ++ "/" ++ toString q.den
  | .str s => "\"" ++ s ++ "\""
  | .list l => "[" ++ serializeList l ++ "]"
  | .dict d => "\x7b" ++ serializeEntries d ++ "\x7d"

/-- Comma-separated serialization of list elements. -/
def serializeList : List Value → String
  | [] => ""
  | v :: vs => serializeValue v ++ "," ++ serializeList vs

/-- Comma-separated serialization of dict entries. -/
def serializeEntries : Entries → String
  | [] => ""
  | e :: es => "\"" ++ e.1 ++ "\":" ++ serializeValue e.2 ++ "," ++ serializeEntries es
end

/-- `json.dumps(v, sort_keys=True)`: serialize through the canonical form. -/
def jsonDumpsSorted (v : Value) : String := serializeValue v.canon

/-- `statistics.mean` / `statistics.stdev` on an already-materialized list of
values: every element must be numeric and the list nonempty, otherwise the
statistics call raises.  Returns the mean together with the sample variance
(`stdev²`) when the length exceeds 1, else `0` — mirroring the source's
`stdev(xs) if len(xs) > 1 else 0` idiom. -/
def sampleVarQ (l : List ℚ) : ℚ :=
  let n : ℚ := l.length
  let m := l.sum / n
  (l.map (fun x => (x - m) ^ 2)).sum / (n - 1)

/-- Mean and (variance-valued) spread of a list of Python values; `none`
models the exception raised by `statistics.mean` on empty or non-numeric
data. -/
def meanStdL (l : List Value) : Option (ℚ × ℚ) :=
  match l.mapM Value.toNum with
  | none => none
  | some nums =>
    if nums.isEmpty then none
    else some (nums.sum / nums.length, if 1 < nums.length then sampleVarQ nums else 0)

/-- `meanStdL` after Python iteration of an arbitrary value. -/
def meanStdV (v : Value) : Option (ℚ × ℚ) :=
  match v.pyIter with
  | none => none
  | some items => meanStdL items

/-- Extracted typing features (`_extract_typing_features`), shared by the
mobile analyzer and the web analyzer (`_extract_web_typing_features`): the
optional fields model the keys that may be absent from the features dict.
`*_std` fields carry the sample variance (see the header). -/
structure TypingFeatures where
  avg_hold_time : Option ℚ := none
  hold_time_std : Option ℚ := none
  avg_flight_time : Option ℚ := none
  flight_time_std : Option ℚ := none
deriving DecidableEq

/-- Extracted touch features (`_extract_touch_features`). -/
structure TouchFeatures where
  avg_swipe_speed : Option ℚ := none
  swipe_speed_std : Option ℚ := none
  avg_touch_pressure : Option ℚ := none
  touch_pressure_std : Option ℚ := none
deriving DecidableEq

/-- Extracted mouse features (`_extract_mouse_features`). -/
structure MouseFeatures where
  avg_mouse_speed : Option ℚ := none
  mouse_speed_std : Option ℚ := none
  avg_movement_angle : Option ℚ := none
deriving DecidableEq

/-- Extracted scroll features (`_extract_scroll_features`).  The preferred
direction is stored as the raw Python value found in the events. -/
structure ScrollFeatures where
  avg_scroll_speed : Option ℚ := none
  scroll_speed_std : Option ℚ := none
  preferred_direction : Option Value := none

/-- Entry list for an optional numeric feature. -/
def optNumEntry (k : String) (o : Option ℚ) : Entries :=
  match o with
  | some q => [(k, .num q)]
  | none => []

/-- The features dict built by `_extract_typing_features`, in insertion order. -/
def TypingFeatures.toValue (f : TypingFeatures) : Value :=
  .dict (optNumEntry "avg_hold_time" f.avg_hold_time ++
         optNumEntry "hold_time_std" f.hold_time_std ++
         optNumEntry "avg_flight_time" f.avg_flight_time ++
         optNumEntry "flight_time_std" f.flight_time_std)

/-- The features dict built by `_extract_touch_features`, in insertion order. -/
def TouchFeatures.toValue (f : TouchFeatures) : Value :=
  .dict (optNumEntry "avg_swipe_speed" f.avg_swipe_speed ++
         optNumEntry "swipe_speed_std" f.swipe_speed_std ++
         optNumEntry "avg_touch_pressure" f.avg_touch_pressure ++
         optNumEntry "touch_pressure_std" f.touch_pressure_std)

/-- The features dict built by `_extract_mouse_features`, in insertion order. -/
def MouseFeatures.toValue (f : MouseFeatures) : Value :=
  .dict (optNumEntry "avg_mouse_speed" f.avg_mouse_speed ++
         optNumEntry "mouse_speed_std" f.mouse_speed_std ++
         optNumEntry "avg_movement_angle" f.avg_movement_angle)

/-- The features dict built by `_extract_scroll_features`, in insertion order. -/
def ScrollFeatures.toValue (f : ScrollFeatures) : Value :=
  .dict (optNumEntry "avg_scroll_speed" f.avg_scroll_speed ++
         optNumEntry "scroll_speed_std" f.scroll_speed_std ++
         (match f.preferred_direction with
          | some v => [("preferred_direction", v)]
          | none => []))

/-- The comprehension `[item.get(key, dv) for item in items if item.get(key)]`
used by the extractors; `none` models the `AttributeError` raised when an item
is not a dict. -/
def getFilterComp (key : String) (dv : Value) : List Value → Option (List Value)
  | [] => some []
  | item :: rest =>
    match item.getN key with
    | none => none
    | some f =>
      if f.truthy then
        match item.getD key dv with
        | none => none
        | some v =>
          match getFilterComp key dv rest with
          | none => none
          | some tl => some (v :: tl)
      else getFilterComp key dv rest

namespace BehavioralAnalyzer

/-- The hold-time half of `_extract_typing_features` (source lines 106-117):
branch on `isinstance(hold_times[0], dict)`, collect `hold_values`, and, when
those are truthy, compute mean and spread.  `some none` means the guard
skipped the block; `none` models an exception aborting the `try`. -/
def extractHoldPart (hold_times : Value) : Option (Option (ℚ × ℚ)) :=
  if hold_times.truthy then
    match hold_times.index0 with
    | none => none
    | some h0 =>
      if h0.isDict then
        match hold_times.pyIter with
        | none => none
        | some items =>
          match getFilterComp "hold_time" (.num 0) items with
          | none => none
          | some hold_values =>
            if !hold_values.isEmpty then
              match meanStdL hold_values with
              | none => none
              | some ms => some (some ms)
            else some none
      else
        -- hold_values = hold_times, which is truthy here
        match meanStdV hold_times with
        | none => none
        | some ms => some (some ms)
  else some none

/-- `BehavioralAnalyzer._extract_typing_features`: total — every internal
exception is caught and the features collected so far are returned. -/
def _extract_typing_features (typing_pattern : Value) : TypingFeatures :=
  match typing_pattern.getD "key_hold_times" (.list []) with
  | none => {}
  | some hold_times =>
  match typing_pattern.getD "flight_times" (.list []) with
  | none => {}
  | some flight_times =>
  match extractHoldPart hold_times with
  | none => {}
  | some holdFeats =>
  let f1 : TypingFeatures :=
    match holdFeats with
    | some ms => { avg_hold_time := some ms.1, hold_time_std := some ms.2 }
    | none => {}
  if flight_times.truthy then
    match meanStdV flight_times with
    | none => f1
    | some ms => { f1 with avg_flight_time := some ms.1, flight_time_std := some ms.2 }
  else f1

/-- `BehavioralAnalyzer._extract_touch_features` (total). -/
def _extract_touch_features (touch_patterns : Value) : TouchFeatures :=
  match touch_patterns.getD "swipe_speeds" (.list []) with
  | none => {}
  | some swipe_data =>
  match touch_patterns.getD "touch_pressures" (.list []) with
  | none => {}
  | some touch_data =>
  let step1 : Option TouchFeatures :=
    if swipe_data.truthy then
      match meanStdV swipe_data with
      | none => none
      | some ms => some { avg_swipe_speed := some ms.1, swipe_speed_std := some ms.2 }
    else some {}
  match step1 with
  | none => {}
  | some f1 =>
  if touch_data.truthy then
    match meanStdV touch_data with
    | none => f1
    | some ms => { f1 with avg_touch_pressure := some ms.1, touch_pressure_std := some ms.2 }
  else f1

/-- Body of `BehavioralAnalyzer._verify_typing_pattern`; `none` is an
exception escaping to the handler that returns `0.0`. -/
def verifyTypingBody (current_typing stored_profile : Value) : Option ℚ :=
  let current_features := _extract_typing_features current_typing
  match current_features.avg_hold_time with
  | none => some (min 0 1)
  | some current_avg =>
    match stored_profile.getN "typical_hold_times" with
    | none => none
    | some tht =>
      if tht.truthy then
        match stored_profile.getD "avg_typing_speed" (.num 0) with
        | none => none
        | some sa =>
          match sa.toNum with
          | none => none
          | some stored_avg =>
            let difference := |stored_avg - current_avg| / max stored_avg 1
            let similarity_score : ℚ :=
              if difference ≤ 2/10 then 7/10 else if difference ≤ 4/10 then 3/10 else 0
            some (min similarity_score 1)
      else some (min 0 1)

/-- `BehavioralAnalyzer._verify_typing_pattern` (exception handler applied). -/
def _verify_typing_pattern (current_typing stored_profile : Value) : ℚ :=
  (verifyTypingBody current_typing stored_profile).getD 0

/-- The swipe-speed comparison block of `_verify_touch_patterns`
(source lines 179-186). -/
def touchSwipeStep (current_features : TouchFeatures) (stored_profile : Value) : Option ℚ :=
  match current_features.avg_swipe_speed with
  | none => some 0
  | some current_speed =>
    match stored_profile.getN "avg_swipe_speed" with
    | none => none
    | some sv =>
      if sv.truthy then
        match stored_profile.sub "avg_swipe_speed" with
        | none => none
        | some sv2 =>
          match sv2.toNum with
          | none => none
          | some stored_speed =>
            some (if |stored_speed - current_speed| / max stored_speed 1 ≤ 3/10 then 5/10 else 0)
      else some 0

/-- Body of `BehavioralAnalyzer._verify_touch_patterns`. -/
def verifyTouchBody (current_touch stored_profile : Value) : Option ℚ :=
  let current_features := _extract_touch_features current_touch
  match touchSwipeStep current_features stored_profile with
  | none => none
  | some s1 =>
    match current_features.avg_touch_pressure with
    | none => some (min s1 1)
    | some current_pressure =>
      match stored_profile.getN "typical_touch_pressure" with
      | none => none
      | some pv =>
        if pv.truthy then
          match stored_profile.sub "typical_touch_pressure" with
          | none => none
          | some pv2 =>
            match pv2.toNum with
            | none => none
            | some stored_pressure =>
              some (min (s1 + if |stored_pressure - current_pressure| / max stored_pressure 1 ≤ 25/100 then 5/10 else 0) 1)
        else some (min s1 1)

/-- `BehavioralAnalyzer._verify_touch_patterns` (exception handler applied). -/
def _verify_touch_patterns (current_touch stored_profile : Value) : ℚ :=
  (verifyTouchBody current_touch stored_profile).getD 0

/-- Body of `BehavioralAnalyzer._verify_device`. -/
def verifyDeviceBody (current_device stored_profile : Value) : Option ℚ :=
  match current_device.getN "device_id" with
  | none => none
  | some current_device_id =>
  match stored_profile.getD "trusted_devices" (.list []) with
  | none => none
  | some trusted_devices =>
  let inTrusted : Option Bool :=
    if current_device_id.truthy then pyContains trusted_devices current_device_id
    else some false
  match inTrusted with
  | none => none
  | some b =>
    if b then some 1
    else
      match current_device.getN "os" with
      | none => none
      | some current_os =>
      match stored_profile.getD "device_characteristics" (.dict []) with
      | none => none
      | some dc =>
      match dc.getN "typical_os" with
      | none => none
      | some stored_typical_os =>
        some (if current_os.truthy && stored_typical_os.truthy && pyEq current_os stored_typical_os
              then 5/10 else 0)

/-- `BehavioralAnalyzer._verify_device` (exception handler applied). -/
def _verify_device (current_device stored_profile : Value) : ℚ :=
  (verifyDeviceBody current_device stored_profile).getD 0

/-- `BehavioralAnalyzer._detect_anomalies` (total: its handler returns the
anomalies accumulated before the exception). -/
def _detect_anomalies (current_data stored_profile : Value) : List String :=
  match current_data.getD "typing_pattern" (.dict []) with
  | none => []
  | some tp =>
  let current_typing := _extract_typing_features tp
  let step1 : Option (List String) :=
    match current_typing.avg_hold_time with
    | none => some []
    | some current_speed =>
      match stored_profile.getN "avg_typing_speed" with
      | none => none
      | some av =>
        if av.truthy then
          match stored_profile.sub "avg_typing_speed" with
          | none => none
          | some av2 =>
            match av2.toNum with
            | none => none
            | some stored_speed =>
              some (if 5/10 < |stored_speed - current_speed| / max stored_speed 1
                    then ["typing_speed_anomaly"] else [])
        else some []
  match step1 with
  | none => []
  | some a1 =>
  let step2 : Option (List String) :=
    match current_data.getD "device_characteristics" (.dict []) with
    | none => none
    | some current_device =>
    match stored_profile.getD "trusted_devices" (.list []) with
    | none => none
    | some trusted_devices =>
    match current_device.getN "device_id" with
    | none => none
    | some did =>
      if did.truthy then
        match pyContains trusted_devices did with
        | none => none
        | some b => some (if !b then ["unfamiliar_device"] else [])
      else some []
  match step2 with
  | none => a1
  | some a2 => a1 ++ a2

/-- The guard `current_data.get('typing_pattern') and
stored_profile.get('typical_hold_times')` (source line 53), with Python's
short-circuit evaluation: `none` models a raised exception, `some none` a
falsy guard, `some (some tv)` a truthy guard carrying the typing value (the
subscript `current_data['typing_pattern']` that follows re-reads it). -/
def typingGuard (current_data stored_profile : Value) : Option (Option Value) :=
  match current_data.getN "typing_pattern" with
  | none => none
  | some tv =>
    if tv.truthy then
      match stored_profile.getN "typical_hold_times" with
      | none => none
      | some hv => some (if hv.truthy then some tv else none)
    else some none

/-- The guard at source line 61: `current_data.get('touch_patterns') and
stored_profile.get('avg_swipe_speed')`. -/
def touchGuard (current_data stored_profile : Value) : Option (Option Value) :=
  match current_data.getN "touch_patterns" with
  | none => none
  | some tv =>
    if tv.truthy then
      match stored_profile.getN "avg_swipe_speed" with
      | none => none
      | some hv => some (if hv.truthy then some tv else none)
    else some none

/-- The guard at source line 69: `current_data.get('device_characteristics')`. -/
def deviceGuard (current_data : Value) : Option (Option Value) :=
  match current_data.getN "device_characteristics" with
  | none => none
  | some dv => some (if dv.truthy then some dv else none)

/-- Body of `BehavioralAnalyzer.verify_behavioral_match` (source lines 48-92). -/
def verifyMatchBody (current_data stored_profile : Value) : Option (Bool × ℚ × ℚ) :=
  match typingGuard current_data stored_profile with
  | none => none
  | some o1 =>
  let f1 : Option ℚ := o1.map (fun tv => _verify_typing_pattern tv stored_profile * (5/10))
  match touchGuard current_data stored_profile with
  | none => none
  | some o2 =>
  let f2 : Option ℚ := o2.map (fun tv => _verify_touch_patterns tv stored_profile * (3/10))
  match deviceGuard current_data with
  | none => none
  | some o3 =>
  let f3 : Option ℚ := o3.map (fun dv => _verify_device dv stored_profile * (2/10))
  let confidence_factors : List ℚ := f1.toList ++ f2.toList ++ f3.toList
  let overall_confidence : ℚ := if confidence_factors.isEmpty then 0 else confidence_factors.sum
  let risk0 : ℚ := max 0 (1 - overall_confidence)
  let anomalies := _detect_anomalies current_data stored_profile
  let risk_score : ℚ :=
    if anomalies.isEmpty then risk0 else min 1 (risk0 + (anomalies.length : ℚ) * (2/10))
  some (decide ((7:ℚ)/10 ≤ overall_confidence), overall_confidence, risk_score)

/-- `BehavioralAnalyzer.verify_behavioral_match`: the `except` handler at
source lines 94-96 turns any exception into the fail-closed triple
`(False, 0.0, 1.0)`. -/
def verify_behavioral_match (current_data stored_profile : Value) : Bool × ℚ × ℚ :=
  match verifyMatchBody current_data stored_profile with
  | some r => r
  | none => (false, 0, 1)

/-- Body of `BehavioralAnalyzer.create_biometric_signature`: assemble the
feature structure and serialize it with sorted keys; the result is the string
fed to SHA-256. -/
def signatureBody (biometric_data : Value) : Option String :=
  match biometric_data.getD "typing_pattern" (.dict []) with
  | none => none
  | some tp =>
  match biometric_data.getD "touch_patterns" (.dict []) with
  | none => none
  | some tpat =>
  match biometric_data.getD "device_characteristics" (.dict []) with
  | none => none
  | some dc =>
  match dc.getD "device_id" (.str "") with
  | none => none
  | some device_id =>
  let signature_data : Value := .dict
    [("typing_rhythm", (_extract_typing_features tp).toValue),
     ("touch_patterns", (_extract_touch_features tpat).toValue),
     ("device_id", device_id)]
  some (jsonDumpsSorted signature_data)

/-- `BehavioralAnalyzer.create_biometric_signature` with the hash function as
an uninterpreted parameter; an exception yields the empty string. -/
def create_biometric_signature (hash : String → String) (biometric_data : Value) : String :=
  match signatureBody biometric_data with
  | some s => hash s
  | none => ""

/-- `set(xs)` for a Python iterable value: duplicate-free list in
first-insertion order; `none` models `TypeError` (non-iterable argument or
unhashable element). -/
def pySetOfList (v : Value) : Option (List Value) :=
  match v.pyIter with
  | none => none
  | some items =>
    if items.all Value.hashable then
      some (items.foldl (fun acc x => if acc.any (pyEq x) then acc else acc ++ [x]) [])
    else none

/-- Python `d[k] = v` on an entry list: overwrite the first occurrence in
place, else append. -/
def setKey (d : Entries) (k : String) (v : Value) : Entries :=
  match d with
  | [] => [(k, v)]
  | e :: es => if e.1 = k then (k, v) :: es else e :: setKey es k v

/-- Python `p[k] = v`: only dicts support item assignment. -/
def Value.setItem (p : Value) (k : String) (v : Value) : Option Value :=
  match p with
  | .dict d => some (.dict (setKey d k v))
  | _ => none

/-- The insertion loop of `_update_device_profile`: for each sample, add its
truthy `device_id` to the trusted-device set if absent.  Set membership of an
unhashable id raises. -/
def updLoop (acc : List Value) : List Value → Option (List Value)
  | [] => some acc
  | sample :: rest =>
    match sample.getN "device_id" with
    | none => none
    | some did =>
      if did.truthy then
        if did.hashable then
          updLoop (if acc.any (pyEq did) then acc else acc ++ [did]) rest
        else none
      else updLoop acc rest

/-- `BehavioralAnalyzer._update_device_profile`; `none` is an exception
propagating to `update_biometric_profile`'s handler (no mutation happens in
that case because `profile['trusted_devices']` is assigned after the loop). -/
def _update_device_profile (profile : Value) (new_samples : List Value) : Option Value :=
  match profile.getD "trusted_devices" (.list []) with
  | none => none
  | some tdv =>
  match pySetOfList tdv with
  | none => none
  | some init =>
  match updLoop init new_samples with
  | none => none
  | some final => Value.setItem profile "trusted_devices" (.list final)

/-- `BehavioralAnalyzer._update_typing_profile`: stub returning the profile
unchanged. -/
def _update_typing_profile (profile : Value) (_new_samples : List Value) : Value := profile

/-- `BehavioralAnalyzer._update_touch_profile`: stub returning the profile
unchanged. -/
def _update_touch_profile (profile : Value) (_new_samples : List Value) : Value := profile

/-- The comprehension `[s.get(key, {}) for s in new_samples if s.get(key)]`. -/
def samplesComp (key : String) : List Value → Option (List Value)
  | [] => some []
  | s :: rest =>
    match s.getN key with
    | none => none
    | some v =>
      if v.truthy then
        match s.getD key (.dict []) with
        | none => none
        | some w =>
          match samplesComp key rest with
          | none => none
          | some tl => some (w :: tl)
      else samplesComp key rest

/-- `BehavioralAnalyzer.update_biometric_profile`.  The handler returns the
profile as mutated so far, so an exception raised by the final
`samples_collected` increment still keeps an already-performed trusted-device
update. -/
def update_biometric_profile (profile_data : Value) (new_samples : List Value) : Value :=
  if new_samples.isEmpty then profile_data
  else
    match samplesComp "typing_pattern" new_samples with
    | none => profile_data
    | some typing_samples =>
    let p1 := if !typing_samples.isEmpty then _update_typing_profile profile_data typing_samples
              else profile_data
    match samplesComp "touch_patterns" new_samples with
    | none => p1
    | some touch_samples =>
    let p2 := if !touch_samples.isEmpty then _update_touch_profile p1 touch_samples else p1
    match samplesComp "device_characteristics" new_samples with
    | none => p2
    | some device_samples =>
    let p3opt : Option Value :=
      if !device_samples.isEmpty then _update_device_profile p2 device_samples else some p2
    match p3opt with
    | none => p2
    | some p3 =>
    match p3.sub "samples_collected" with
    | none => p3
    | some sc =>
      match sc.toNum with
      | none => p3
      | some n =>
        match Value.setItem p3 "samples_collected" (.num (n + new_samples.length)) with
        | none => p3
        | some p4 => p4

end BehavioralAnalyzer

namespace WebBehaviorAnalyzer

/-- `'x' in m and 'y' in m`, with Python short-circuiting. -/
def hasXY (m : Value) : Option Bool :=
  match pyContains m (.str "x") with
  | none => none
  | some b =>
    if b then pyContains m (.str "y") else some false

/-- One step of the movement-angle loop in `_extract_mouse_features`
(source lines 110-116): for the pair `(mouse_movements[i-1], mouse_movements[i])`,
compute `abs(dy/dx)` when both records carry `x` and `y` and `dx != 0`.
`some none` means no angle was appended. -/
def anglesStep (cur prev : Value) : Option (Option ℚ) :=
  match hasXY cur with
  | none => none
  | some b1 =>
    if b1 then
      match hasXY prev with
      | none => none
      | some b2 =>
        if b2 then
          match cur.sub "x" with
          | none => none
          | some cx =>
          match cx.toNum with
          | none => none
          | some cxn =>
          match prev.sub "x" with
          | none => none
          | some px =>
          match px.toNum with
          | none => none
          | some pxn =>
          match cur.sub "y" with
          | none => none
          | some cy =>
          match cy.toNum with
          | none => none
          | some cyn =>
          match prev.sub "y" with
          | none => none
          | some py =>
          match py.toNum with
          | none => none
          | some pyn =>
            let dx := cxn - pxn
            let dy := cyn - pyn
            some (if dx ≠ 0 then some |dy / dx| else none)
        else some none
    else some none

/-- The whole movement-angle loop over consecutive pairs. -/
def anglesAll : List Value → Option (List ℚ)
  | prev :: cur :: rest =>
    match anglesStep cur prev with
    | none => none
    | some o =>
      match anglesAll (cur :: rest) with
      | none => none
      | some tl => some (o.toList ++ tl)
  | _ => some []

/-- `WebBehaviorAnalyzer._extract_mouse_features` (total).  When the movements
value is a dict, Python's integer indexing in the angle loop raises and the
handler keeps the speed features; in the model the angle loop simply collects
no angles over the iterated keys — the resulting features agree. -/
def _extract_mouse_features (mouse_movements : Value) : MouseFeatures :=
  if !mouse_movements.truthy then {}
  else
    match mouse_movements.pyIter with
    | none => {}
    | some items =>
    match getFilterComp "speed" (.num 0) items with
    | none => {}
    | some speeds =>
    let step1 : Option MouseFeatures :=
      if !speeds.isEmpty then
        match meanStdL speeds with
        | none => none
        | some ms => some { avg_mouse_speed := some ms.1, mouse_speed_std := some ms.2 }
      else some {}
    match step1 with
    | none => {}
    | some f1 =>
    match anglesAll items with
    | none => f1
    | some movement_angles =>
      if !movement_angles.isEmpty then
        { f1 with avg_movement_angle := some (movement_angles.sum / movement_angles.length) }
      else f1

/-- `max(set(directions), key=directions.count)`: deduplicate (raising on an
unhashable element), then keep the first element whose count is strictly
maximal, mirroring how Python's `max` keeps the earliest maximum. -/
def pyModeOfSet (directions : List Value) : Option Value :=
  if directions.all Value.hashable then
    match directions.foldl (fun acc x => if acc.any (pyEq x) then acc else acc ++ [x]) [] with
    | [] => none
    | u :: us =>
      some (us.foldl
        (fun best x =>
          if directions.countP (fun y => pyEq y best) < directions.countP (fun y => pyEq y x)
          then x else best) u)
  else none

/-- `WebBehaviorAnalyzer._extract_scroll_features` (total). -/
def _extract_scroll_features (scroll_events : Value) : ScrollFeatures :=
  if !scroll_events.truthy then {}
  else
    match scroll_events.pyIter with
    | none => {}
    | some items =>
    match getFilterComp "speed" (.num 0) items with
    | none => {}
    | some speeds =>
    let step1 : Option ScrollFeatures :=
      if !speeds.isEmpty then
        match meanStdL speeds with
        | none => none
        | some ms => some { avg_scroll_speed := some ms.1, scroll_speed_std := some ms.2 }
      else some {}
    match step1 with
    | none => {}
    | some f1 =>
    match getFilterComp "direction" (.str "") items with
    | none => f1
    | some directions =>
      if !directions.isEmpty then
        match pyModeOfSet directions with
        | none => f1
        | some d => { f1 with preferred_direction := some d }
      else f1

/-- `WebBehaviorAnalyzer._extract_web_typing_features` (total). -/
def _extract_web_typing_features (keystroke_timing : Value) : TypingFeatures :=
  if !keystroke_timing.truthy then {}
  else
    match keystroke_timing.pyIter with
    | none => {}
    | some items =>
    match getFilterComp "hold_time" (.num 0) items with
    | none => {}
    | some hold_times =>
    match getFilterComp "next_key_delay" (.num 0) items with
    | none => {}
    | some flight_times =>
    let step1 : Option TypingFeatures :=
      if !hold_times.isEmpty then
        match meanStdL hold_times with
        | none => none
        | some ms => some { avg_hold_time := some ms.1, hold_time_std := some ms.2 }
      else some {}
    match step1 with
    | none => {}
    | some f1 =>
    if !flight_times.isEmpty then
      match meanStdL flight_times with
      | none => f1
      | some ms => { f1 with avg_flight_time := some ms.1, flight_time_std := some ms.2 }
    else f1

/-- `WebBehaviorAnalyzer._create_browser_fingerprint` (total: an exception
inside the `try` leaves the initial empty fingerprint). -/
def _create_browser_fingerprint (browser_info : Value) : Value :=
  if browser_info.truthy then
    match browser_info with
    | .dict d => .dict
        [("user_agent", (lookupFirst "userAgent" d).getD (.str "")),
         ("language", (lookupFirst "language" d).getD (.str "")),
         ("platform", (lookupFirst "platform" d).getD (.str "")),
         ("hardware_concurrency", (lookupFirst "hardwareConcurrency" d).getD (.str "")),
         ("device_memory", (lookupFirst "deviceMemory" d).getD (.str "")),
         ("screen_resolution", (lookupFirst "screen" d).getD (.dict [])),
         ("timezone", (lookupFirst "timezone" d).getD (.str "")),
         ("canvas_fingerprint", (lookupFirst "canvas" d).getD (.str "")),
         ("webgl_fingerprint", (lookupFirst "webgl" d).getD (.str ""))]
    | _ => .dict []
  else .dict []

/-- Body of `WebBehaviorAnalyzer._verify_mouse_patterns`. -/
def verifyMouseBody (current_movements stored_patterns : Value) : Option ℚ :=
  let current_features := _extract_mouse_features current_movements
  match current_features.avg_mouse_speed with
  | none => some (min 0 1)
  | some current_speed =>
    match pyContains stored_patterns (.str "avg_mouse_speed") with
    | none => none
    | some b =>
      if b then
        match stored_patterns.sub "avg_mouse_speed" with
        | none => none
        | some sv =>
          match sv.toNum with
          | none => none
          | some stored_speed =>
            some (min (if |stored_speed - current_speed| / max stored_speed 1 ≤ 3/10
                       then 7/10 else 0) 1)
      else some (min 0 1)

/-- `WebBehaviorAnalyzer._verify_mouse_patterns` (exception handler applied). -/
def _verify_mouse_patterns (current_movements stored_patterns : Value) : ℚ :=
  (verifyMouseBody current_movements stored_patterns).getD 0

/-- The hold-time comparison block of `_verify_web_typing`
(source lines 221-227). -/
def webHoldStep (current_features : TypingFeatures) (stored_rhythm : Value) : Option ℚ :=
  match current_features.avg_hold_time with
  | none => some 0
  | some current_hold =>
    match pyContains stored_rhythm (.str "avg_hold_time") with
    | none => none
    | some b =>
      if b then
        match stored_rhythm.sub "avg_hold_time" with
        | none => none
        | some sv =>
          match sv.toNum with
          | none => none
          | some stored_hold =>
            some (if |stored_hold - current_hold| / max stored_hold 1 ≤ 25/100 then 5/10 else 0)
      else some 0

/-- Body of `WebBehaviorAnalyzer._verify_web_typing`. -/
def verifyWebTypingBody (current_typing stored_rhythm : Value) : Option ℚ :=
  let current_features := _extract_web_typing_features current_typing
  match webHoldStep current_features stored_rhythm with
  | none => none
  | some s1 =>
    match current_features.avg_flight_time with
    | none => some (min s1 1)
    | some current_flight =>
      match pyContains stored_rhythm (.str "avg_flight_time") with
      | none => none
      | some b =>
        if b then
          match stored_rhythm.sub "avg_flight_time" with
          | none => none
          | some sv =>
            match sv.toNum with
            | none => none
            | some stored_flight =>
              some (min (s1 + if |stored_flight - current_flight| / max stored_flight 1 ≤ 3/10
                              then 5/10 else 0) 1)
        else some (min s1 1)

/-- `WebBehaviorAnalyzer._verify_web_typing` (exception handler applied). -/
def _verify_web_typing (current_typing stored_rhythm : Value) : ℚ :=
  (verifyWebTypingBody current_typing stored_rhythm).getD 0

/-- Body of `WebBehaviorAnalyzer._verify_scroll_behavior`. -/
def verifyScrollBody (current_scroll stored_patterns : Value) : Option ℚ :=
  let current_features := _extract_scroll_features current_scroll
  match current_features.avg_scroll_speed with
  | none => some (min 0 1)
  | some current_speed =>
    match pyContains stored_patterns (.str "avg_scroll_speed") with
    | none => none
    | some b =>
      if b then
        match stored_patterns.sub "avg_scroll_speed" with
        | none => none
        | some sv =>
          match sv.toNum with
          | none => none
          | some stored_speed =>
            some (min (if |stored_speed - current_speed| / max stored_speed 1 ≤ 4/10
                       then 1 else 0) 1)
      else some (min 0 1)

/-- `WebBehaviorAnalyzer._verify_scroll_behavior` (exception handler applied). -/
def _verify_scroll_behavior (current_scroll stored_patterns : Value) : ℚ :=
  (verifyScrollBody current_scroll stored_patterns).getD 0

/-- Body of `WebBehaviorAnalyzer._verify_browser_fingerprint`: count the
stored attributes matched by the freshly built fingerprint.  An empty stored
fingerprint returns `0.0` before any comparison. -/
def verifyBrowserFpBody (current_browser stored_fingerprint : Value) : Option ℚ :=
  let current_fingerprint := _create_browser_fingerprint current_browser
  match stored_fingerprint.pyLen with
  | none => none
  | some total_attributes =>
    if total_attributes = 0 then some 0
    else
      match stored_fingerprint.pyItems with
      | none => none
      | some entries =>
        let matching_attributes :=
          entries.countP (fun e => pyEq ((current_fingerprint.getN e.1).getD .null) e.2)
        some ((matching_attributes : ℚ) / (total_attributes : ℚ))

/-- `WebBehaviorAnalyzer._verify_browser_fingerprint` (exception handler
applied). -/
def _verify_browser_fingerprint (current_browser stored_fingerprint : Value) : ℚ :=
  (verifyBrowserFpBody current_browser stored_fingerprint).getD 0

/-- `WebBehaviorAnalyzer._detect_web_anomalies` (total: the handler returns
the anomalies accumulated before any exception).  The robotic-mouse rule
compares the variance-valued feature against the squared threshold `0.01`,
equivalent to the source's `mouse_speed_std < 0.1`. -/
def _detect_web_anomalies (current_data stored_profile : Value) : List String :=
  match current_data.getD "mouse_movements" (.list []) with
  | none => []
  | some mm =>
  let mouse_features := _extract_mouse_features mm
  let a1 : List String :=
    match mouse_features.mouse_speed_std with
    | some sd => if sd < 1/100 then ["robotic_mouse_movements"] else []
    | none => []
  let step2 : Option (List String) :=
    match current_data.getD "browser_info" (.dict []) with
    | none => none
    | some cb =>
    match stored_profile.getD "browser_fingerprint" (.dict []) with
    | none => none
    | some sfp =>
      some (if _verify_browser_fingerprint cb sfp < 3/10 then ["browser_fingerprint_mismatch"]
            else [])
  match step2 with
  | none => a1
  | some a2 => a1 ++ a2

/-- The guard at source line 46: `current_data.get('mouse_movements') and
stored_profile.get('mouse_patterns')`; a truthy guard carries the pair of the
current movements and the stored sub-profile passed to the channel verifier. -/
def mouseGuard (current_data stored_profile : Value) : Option (Option (Value × Value)) :=
  match current_data.getN "mouse_movements" with
  | none => none
  | some mv =>
    if mv.truthy then
      match stored_profile.getN "mouse_patterns" with
      | none => none
      | some sv => some (if sv.truthy then some (mv, sv) else none)
    else some none

/-- The guard at source line 54: `current_data.get('keystroke_timing') and
stored_profile.get('typing_rhythm')`. -/
def keystrokeGuard (current_data stored_profile : Value) : Option (Option (Value × Value)) :=
  match current_data.getN "keystroke_timing" with
  | none => none
  | some kv =>
    if kv.truthy then
      match stored_profile.getN "typing_rhythm" with
      | none => none
      | some sv => some (if sv.truthy then some (kv, sv) else none)
    else some none

/-- The guard at source line 62: `current_data.get('scroll_events') and
stored_profile.get('scroll_patterns')`. -/
def scrollGuard (current_data stored_profile : Value) : Option (Option (Value × Value)) :=
  match current_data.getN "scroll_events" with
  | none => none
  | some sv =>
    if sv.truthy then
      match stored_profile.getN "scroll_patterns" with
      | none => none
      | some pv => some (if pv.truthy then some (sv, pv) else none)
    else some none

/-- The guard at source line 70: `current_data.get('browser_info')`, paired
with `stored_profile.get('browser_fingerprint', {})` (source line 73) which is
evaluated only when the guard is truthy. -/
def browserGuard (current_data stored_profile : Value) : Option (Option (Value × Value)) :=
  match current_data.getN "browser_info" with
  | none => none
  | some bv =>
    if bv.truthy then
      match stored_profile.getD "browser_fingerprint" (.dict []) with
      | none => none
      | some fv => some (some (bv, fv))
    else some none

/-- Body of `WebBehaviorAnalyzer.verify_web_behavior` (source lines 41-88). -/
def verifyWebBody (current_data stored_profile : Value) : Option (Bool × ℚ × ℚ) :=
  match mouseGuard current_data stored_profile with
  | none => none
  | some o1 =>
  let f1 : Option ℚ := o1.map (fun p => _verify_mouse_patterns p.1 p.2 * (4/10))
  match keystrokeGuard current_data stored_profile with
  | none => none
  | some o2 =>
  let f2 : Option ℚ := o2.map (fun p => _verify_web_typing p.1 p.2 * (3/10))
  match scrollGuard current_data stored_profile with
  | none => none
  | some o3 =>
  let f3 : Option ℚ := o3.map (fun p => _verify_scroll_behavior p.1 p.2 * (2/10))
  match browserGuard current_data stored_profile with
  | none => none
  | some o4 =>
  let f4 : Option ℚ := o4.map (fun p => _verify_browser_fingerprint p.1 p.2 * (1/10))
  let confidence_factors : List ℚ := f1.toList ++ f2.toList ++ f3.toList ++ f4.toList
  let overall_confidence : ℚ := if confidence_factors.isEmpty then 0 else confidence_factors.sum
  let risk0 : ℚ := max 0 (1 - overall_confidence)
  let anomalies := _detect_web_anomalies current_data stored_profile
  let risk_score : ℚ :=
    if anomalies.isEmpty then risk0 else min 1 (risk0 + (anomalies.length : ℚ) * (15/100))
  some (decide ((65:ℚ)/100 ≤ overall_confidence), overall_confidence, risk_score)

/-- `WebBehaviorAnalyzer.verify_web_behavior`: the `except` handler at source
lines 90-92 turns any exception into the fail-closed triple `(False, 0.0, 1.0)`. -/
def verify_web_behavior (current_data stored_profile : Value) : Bool × ℚ × ℚ :=
  match verifyWebBody current_data stored_profile with
  | some r => r
  | none => (false, 0, 1)

/-- Body of `WebBehaviorAnalyzer.create_web_behavioral_signature`. -/
def webSignatureBody (web_data : Value) : Option String :=
  match web_data.getD "mouse_movements" (.list []) with
  | none => none
  | some mm =>
  match web_data.getD "scroll_events" (.list []) with
  | none => none
  | some se =>
  match web_data.getD "keystroke_timing" (.list []) with
  | none => none
  | some kt =>
  match web_data.getD "browser_info" (.dict []) with
  | none => none
  | some bi =>
  let signature_data : Value := .dict
    [("mouse_patterns", (_extract_mouse_features mm).toValue),
     ("scroll_patterns", (_extract_scroll_features se).toValue),
     ("typing_rhythm", (_extract_web_typing_features kt).toValue),
     ("browser_fingerprint", _create_browser_fingerprint bi)]
  some (jsonDumpsSorted signature_data)

/-- `WebBehaviorAnalyzer.create_web_behavioral_signature` with the hash
function as an uninterpreted parameter; an exception yields the empty string. -/
def create_web_behavioral_signature (hash : String → String) (web_data : Value) : String :=
  match webSignatureBody web_data with
  | some s => hash s
  | none => ""

end WebBehaviorAnalyzer

/-- The verification outcome record assembled by the views. -/
structure VerificationResult where
  is_verified : Bool
  confidence_score : ℚ
  risk_score : ℚ
  status : String
  message : String
  requires_challenge : Bool
  challenge_type : Option String
deriving DecidableEq

/-- `CrossPlatformVerificationView._prepare_verification_result`
(`biometrics/views.py` lines 508-528). -/
def prepare_verification_result (is_match : Bool) (confidence risk_score : ℚ) :
    VerificationResult :=
  let status_str : String :=
    if is_match && decide ((7:ℚ)/10 ≤ confidence) then "success"
    else if (5:ℚ)/10 ≤ confidence then "suspicious"
    else "failed"
  let message : String :=
    if is_match && decide ((7:ℚ)/10 ≤ confidence) then "Biometric verification successful"
    else if (5:ℚ)/10 ≤ confidence then "Verification suspicious - additional authentication required"
    else "Biometric verification failed"
  { is_verified := is_match && decide ((7:ℚ)/10 ≤ confidence)
    confidence_score := confidence
    risk_score := risk_score
    status := status_str
    message := message
    requires_challenge := status_str = "suspicious"
    challenge_type := if status_str = "suspicious" then some "otp" else none }

/-- The identical decision mapping inlined in `BiometricVerificationView.post`
(`biometrics/views.py` lines 166-199), with that view's message strings. -/
def biometric_verification_decision (is_match : Bool) (confidence risk_score : ℚ) :
    VerificationResult :=
  let status_str : String :=
    if is_match && decide ((7:ℚ)/10 ≤ confidence) then "success"
    else if (5:ℚ)/10 ≤ confidence then "suspicious"
    else "failed"
  let message : String :=
    if is_match && decide ((7:ℚ)/10 ≤ confidence) then "Biometric verification successful"
    else if (5:ℚ)/10 ≤ confidence then
      "Biometric verification suspicious - additional authentication required"
    else "Biometric verification failed"
  { is_verified := is_match && decide ((7:ℚ)/10 ≤ confidence)
    confidence_score := confidence
    risk_score := risk_score
    status := status_str
    message := message
    requires_challenge := status_str = "suspicious"
    challenge_type := if status_str = "suspicious" then some "otp" else none }

/-- Predicate used by the profile-update claim: a sample is a dict whose
truthy `device_characteristics` entry (if any) is itself a dict whose truthy
`device_id` (if any) is a string — the shape every sample produced by the
collection layer has. -/
def WellFormedSample (x : Value) : Prop :=
  x.isDict = true ∧
  ∀ dc, x.getN "device_characteristics" = some dc → dc.truthy = true →
    dc.isDict = true ∧
    ∀ did, dc.getN "device_id" = some did → did.truthy = true → ∃ s, did = Value.str s

/-- The truthy values stored under `key` in a list of sample dicts, in order
(the content produced by `[s.get(key, {}) for s in new_samples if s.get(key)]`
when every sample is a dict). -/
def truthyVals (key : String) : List Value → List Value
  | [] => []
  | x :: rest =>
    match x.getN key with
    | some v => if v.truthy then v :: truthyVals key rest else truthyVals key rest
    | none => truthyVals key rest

/-- The truthy `device_id`s of a list of `device_characteristics` dicts, in
order. -/
def dcDeviceIds : List Value → List Value
  | [] => []
  | dc :: rest =>
    match dc.getN "device_id" with
    | some did => if did.truthy then did :: dcDeviceIds rest else dcDeviceIds rest
    | none => dcDeviceIds rest

/-- The truthy device ids contributed by a batch of samples: the ids of the
truthy `device_characteristics` of the batch. -/
def batchDeviceIds (samples : List Value) : List Value :=
  dcDeviceIds (truthyVals "device_characteristics" samples)

/-- The set-insertion step shared by `pySetOfList` and `updLoop`: append the
element unless an equal one is already present. -/
def pyInsert (acc : List Value) (x : Value) : List Value :=
  if acc.any (pyEq x) then acc else acc ++ [x]

theorem lexLe_refl (l : List ℕ) : lexLe l l = true := by
  induction l with
  | nil => rfl
  | cons x xs ih => simp [lexLe, ih]

theorem strLe_refl (a : String) : strLe a a = true := lexLe_refl _

theorem lexLe_total (a b : List ℕ) : lexLe a b = true ∨ lexLe b a = true := by
  induction a generalizing b with
  | nil => left; rfl
  | cons x xs ih =>
    cases b with
    | nil => right; rfl
    | cons y ys =>
      rcases Nat.lt_trichotomy x y with h | h | h
      · left; simp [lexLe, h]
      · subst h
        rcases ih ys with h2 | h2
        · left; simp [lexLe, h2]
        · right; simp [lexLe, h2]
      · right; simp [lexLe, h, Nat.not_lt_of_lt h]

theorem strLe_total (a b : String) : strLe a b = true ∨ strLe b a = true := lexLe_total _ _

theorem lexLe_trans {a b c : List ℕ} (h1 : lexLe a b = true) (h2 : lexLe b c = true) :
    lexLe a c = true := by
  induction a generalizing b c with
  | nil => rfl
  | cons x xs ih =>
    cases b with
    | nil => simp [lexLe] at h1
    | cons y ys =>
      cases c with
      | nil => simp [lexLe] at h2
      | cons z zs =>
        simp only [lexLe] at h1 h2 ⊢
        rcases Nat.lt_trichotomy x y with hxy | hxy | hxy
        · rcases Nat.lt_trichotomy y z with hyz | hyz | hyz
          · simp [Nat.lt_trans hxy hyz]
          · subst hyz; simp [hxy]
          · simp [hyz, Nat.not_lt_of_lt hyz] at h2
        · subst hxy
          rcases Nat.lt_trichotomy x z with hyz | hyz | hyz
          · simp [hyz]
          · subst hyz
            simp only [lt_irrefl, if_false] at h1 h2 ⊢
            exact ih h1 h2
          · simp [hyz, Nat.not_lt_of_lt hyz] at h2
        · simp [hxy, Nat.not_lt_of_lt hxy] at h1

theorem strLe_trans {a b c : String} (h1 : strLe a b = true) (h2 : strLe b c = true) :
    strLe a c = true := lexLe_trans h1 h2

theorem lookupFirst_insertByKey (k : String) (e : String × Value) (l : Entries) :
    lookupFirst k (insertByKey e l) = if e.1 = k then some e.2 else lookupFirst k l := by
  induction l with
  | nil => simp [insertByKey, lookupFirst]
  | cons f fs ih =>
    by_cases hle : strLe e.1 f.1 = true
    · simp [insertByKey, hle, lookupFirst]
    · simp only [insertByKey, hle, Bool.false_eq_true, if_false, lookupFirst]
      by_cases hf : f.1 = k
      · by_cases he : e.1 = k
        · exfalso
          apply hle
          rw [he, hf]
          exact strLe_refl _
        · simp [hf, he]
      · simp [hf, ih]

theorem lookupFirst_sortByKey (k : String) (l : Entries) :
    lookupFirst k (sortByKey l) = lookupFirst k l := by
  induction l with
  | nil => rfl
  | cons e es ih =>
    simp [sortByKey, lookupFirst_insertByKey, lookupFirst, ih]

theorem mem_insertByKey {x e : String × Value} {l : Entries} :
    x ∈ insertByKey e l ↔ x = e ∨ x ∈ l := by
  induction l with
  | nil => simp [insertByKey]
  | cons f fs ih =>
    by_cases hle : strLe e.1 f.1 = true
    · simp [insertByKey, hle]
    · simp only [insertByKey, hle, Bool.false_eq_true, if_false, List.mem_cons, ih]
      tauto

theorem length_insertByKey (e : String × Value) (l : Entries) :
    (insertByKey e l).length = l.length + 1 := by
  induction l with
  | nil => rfl
  | cons f fs ih =>
    by_cases hle : strLe e.1 f.1 = true
    · simp [insertByKey, hle]
    · simp [insertByKey, hle, ih]

theorem length_sortByKey (l : Entries) : (sortByKey l).length = l.length := by
  induction l with
  | nil => rfl
  | cons e es ih => simp [sortByKey, length_insertByKey, ih]

theorem insertByKey_sorted {e : String × Value} {l : Entries}
    (h : List.Pairwise (fun a b => strLe a.1 b.1 = true) l) :
    List.Pairwise (fun a b => strLe a.1 b.1 = true) (insertByKey e l) := by
  induction l with
  | nil => simp [insertByKey]
  | cons f fs ih =>
    have hf : ∀ x ∈ fs, strLe f.1 x.1 = true := (List.pairwise_cons.mp h).1
    have hfs : List.Pairwise (fun a b => strLe a.1 b.1 = true) fs := (List.pairwise_cons.mp h).2
    by_cases hle : strLe e.1 f.1 = true
    · simp only [insertByKey, hle, if_true]
      refine List.Pairwise.cons ?_ h
      intro x hx
      rcases List.mem_cons.mp hx with rfl | hx
      · exact hle
      · exact strLe_trans hle (hf x hx)
    · simp only [insertByKey, hle, Bool.false_eq_true, if_false]
      refine List.Pairwise.cons ?_ (ih hfs)
      intro x hx
      rcases mem_insertByKey.mp hx with rfl | hx
      · rcases strLe_total x.1 f.1 with h2 | h2
        · exact absurd h2 hle
        · exact h2
      · exact hf x hx

theorem sortByKey_sorted (l : Entries) :
    List.Pairwise (fun a b => strLe a.1 b.1 = true) (sortByKey l) := by
  induction l with
  | nil => exact List.Pairwise.nil
  | cons e es ih => exact insertByKey_sorted ih

theorem sortByKey_eq_self {l : Entries}
    (h : List.Pairwise (fun a b => strLe a.1 b.1 = true) l) : sortByKey l = l := by
  induction l with
  | nil => rfl
  | cons e es ih =>
    have he : ∀ x ∈ es, strLe e.1 x.1 = true := (List.pairwise_cons.mp h).1
    rw [sortByKey, ih (List.pairwise_cons.mp h).2]
    cases es with
    | nil => rfl
    | cons f fs => simp [insertByKey, he f (List.mem_cons_self _ _)]

theorem mem_sortByKey {x : String × Value} {l : Entries} : x ∈ sortByKey l ↔ x ∈ l := by
  induction l with
  | nil => simp [sortByKey]
  | cons e es ih => simp [sortByKey, mem_insertByKey, ih]

theorem canonList_eq_map (l : List Value) : canonList l = l.map Value.canon := by
  induction l with
  | nil => rfl
  | cons v vs ih => simp [canonList, ih]

theorem canonEntries_eq_map (d : Entries) :
    canonEntries d = d.map (fun e => (e.1, Value.canon e.2)) := by
  induction d with
  | nil => rfl
  | cons e es ih => simp [canonEntries, ih]

theorem lookupFirst_canonEntries (k : String) (d : Entries) :
    lookupFirst k (canonEntries d) = (lookupFirst k d).map Value.canon := by
  induction d with
  | nil => rfl
  | cons e es ih =>
    by_cases hk : e.1 = k
    · simp [canonEntries, lookupFirst, hk]
    · simp [canonEntries, lookupFirst, hk, ih]

theorem Value.myInd (P : Value → Prop)
    (h0 : P .null) (h1 : ∀ b, P (.bool b)) (h2 : ∀ q, P (.num q)) (h3 : ∀ s, P (.str s))
    (h4 : ∀ l, (∀ v ∈ l, P v) → P (.list l))
    (h5 : ∀ d, (∀ e ∈ d, P e.2) → P (.dict d)) : ∀ v, P v
  | .null => h0
  | .bool b => h1 b
  | .num q => h2 q
  | .str s => h3 s
  | .list l => h4 l (fun v _ => Value.myInd P h0 h1 h2 h3 h4 h5 v)
  | .dict d => h5 d (fun e _ => Value.myInd P h0 h1 h2 h3 h4 h5 e.2)
termination_by v => sizeOf v
decreasing_by
  · rename_i hv
    have := List.sizeOf_lt_of_mem hv
    simp only [Value.list.sizeOf_spec]
    omega
  · rename_i he
    have hm := List.sizeOf_lt_of_mem he
    have h2 : sizeOf e.2 < sizeOf e := by
      obtain ⟨a, b⟩ := e
      simp only [Prod.mk.sizeOf_spec]
      omega
    simp only [Value.dict.sizeOf_spec]
    omega

theorem canon_canon : ∀ v : Value, v.canon.canon = v.canon := by
  intro v
  induction v using Value.myInd with
  | h0 => rfl
  | h1 b => rfl
  | h2 q => rfl
  | h3 s => rfl
  | h4 l ih =>
    rw [Value.canon, Value.canon, canonList_eq_map, canonList_eq_map, List.map_map]
    congr 1
    apply List.map_congr_left
    intro v hv
    exact ih v hv
  | h5 d ih =>
    rw [Value.canon, Value.canon]
    congr 1
    have h1 : canonEntries (sortByKey (canonEntries d)) = sortByKey (canonEntries d) := by
      rw [canonEntries_eq_map]
      conv_rhs => rw [← List.map_id (sortByKey (canonEntries d))]
      apply List.map_congr_left
      intro e he
      have he2 : e ∈ canonEntries d := mem_sortByKey.mp he
      rw [canonEntries_eq_map] at he2
      rcases List.mem_map.mp he2 with ⟨f, hf, rfl⟩
      simp [ih f hf]
    rw [h1, sortByKey_eq_self (sortByKey_sorted _)]

theorem sortByKey_isEmpty (l : Entries) : (sortByKey l).isEmpty = l.isEmpty := by
  cases l with
  | nil => rfl
  | cons e es =>
    have hlen : (sortByKey (e :: es)).length = es.length + 1 := length_sortByKey _
    cases h : sortByKey (e :: es) with
    | nil => rw [h] at hlen; simp at hlen
    | cons f fs => rfl

theorem canonEntries_isEmpty (d : Entries) : (canonEntries d).isEmpty = d.isEmpty := by
  cases d <;> rfl

theorem truthy_canon (v : Value) : v.canon.truthy = v.truthy := by
  cases v with
  | list l =>
    simp only [Value.canon, Value.truthy, canonList_eq_map]
    cases l <;> rfl
  | dict d =>
    simp only [Value.canon, Value.truthy, sortByKey_isEmpty, canonEntries_isEmpty]
  | _ => rfl

theorem isDict_canon (v : Value) : v.canon.isDict = v.isDict := by
  cases v <;> rfl

theorem hashable_canon (v : Value) : v.canon.hashable = v.hashable := by
  cases v <;> rfl

theorem toNum_canon (v : Value) : v.canon.toNum = v.toNum := by
  cases v <;> rfl

theorem getD_canon (v : Value) (k : String) (dv : Value) (hdv : dv.canon = dv) :
    v.canon.getD k dv = (v.getD k dv).map Value.canon := by
  cases v with
  | dict d =>
    simp only [Value.canon, Value.getD, lookupFirst_sortByKey, lookupFirst_canonEntries,
      Option.map_some]
    cases lookupFirst k d with
    | none => simp [hdv]
    | some w => simp
  | _ => rfl

theorem getN_canon (v : Value) (k : String) :
    v.canon.getN k = (v.getN k).map Value.canon := by
  simpa [Value.getN] using getD_canon v k .null rfl

theorem sub_canon (v : Value) (k : String) :
    v.canon.sub k = (v.sub k).map Value.canon := by
  cases v with
  | dict d =>
    simp [Value.canon, Value.sub, lookupFirst_sortByKey, lookupFirst_canonEntries]
  | _ => rfl

theorem index0_canon (v : Value) : v.canon.index0 = v.index0.map Value.canon := by
  cases v with
  | list l =>
    cases l with
    | nil => rfl
    | cons h t => simp [Value.canon, canonList, Value.index0]
  | str s =>
    cases hs : s.data with
    | nil => simp [Value.canon, Value.index0, hs]
    | cons c cs => simp [Value.canon, Value.index0, hs]
  | _ => rfl

theorem any_sortByKey (p : String × Value → Bool) (l : Entries) :
    (sortByKey l).any p = l.any p := by
  cases h : l.any p with
  | false =>
    simp only [List.any_eq_false] at h ⊢
    intro x hx
    exact h x (mem_sortByKey.mp hx)
  | true =>
    rcases List.any_eq_true.mp h with ⟨x, hx, hp⟩
    exact List.any_eq_true.mpr ⟨x, mem_sortByKey.mpr hx, hp⟩

theorem pyEq_canon_left (a b : Value) : pyEq a.canon b = pyEq a b := by
  simp [pyEq, canon_canon]

theorem pyEq_canon_right (a b : Value) : pyEq a b.canon = pyEq a b := by
  simp [pyEq, canon_canon]

theorem pyContains_canon (c x : Value) : pyContains c.canon x = pyContains c x := by
  cases c with
  | dict d =>
    simp only [Value.canon, pyContains, any_sortByKey, canonEntries_eq_map, List.any_map]
    rfl
  | list l =>
    simp only [Value.canon, pyContains, canonList_eq_map, List.any_map]
    refine congrArg _ (congrArg _ (funext fun e => ?_))
    simp only [Function.comp_apply]
    exact pyEq_canon_right x e
  | _ => rfl

theorem pyLen_canon (v : Value) : v.canon.pyLen = v.pyLen := by
  cases v with
  | list l => simp [Value.canon, Value.pyLen, canonList_eq_map]
  | dict d =>
    simp [Value.canon, Value.pyLen, length_sortByKey, canonEntries_eq_map]
  | _ => rfl

theorem mapM_toNum_canon (l : List Value) :
    (l.map Value.canon).mapM Value.toNum = l.mapM Value.toNum := by
  induction l with
  | nil => rfl
  | cons v vs ih =>
    simp only [List.map_cons, List.mapM_cons, toNum_canon, ih]

theorem meanStdL_canon (l : List Value) : meanStdL (l.map Value.canon) = meanStdL l := by
  simp only [meanStdL, mapM_toNum_canon]

theorem meanStdL_of_str_head (s : String) (rest : List Value) :
    meanStdL (.str s :: rest) = none := rfl

theorem meanStdL_all_str {l : List Value} (hne : l ≠ [])
    (h : ∀ v ∈ l, ∃ s, v = Value.str s) : meanStdL l = none := by
  cases l with
  | nil => exact absurd rfl hne
  | cons v vs =>
    rcases h v (List.mem_cons_self _ _) with ⟨s, rfl⟩
    rfl

theorem meanStdV_canon (v : Value) : meanStdV v.canon = meanStdV v := by
  cases v with
  | list l =>
    simp only [Value.canon, meanStdV, Value.pyIter, canonList_eq_map, meanStdL_canon]
  | dict d =>
    cases d with
    | nil => rfl
    | cons e es =>
      simp only [Value.canon, meanStdV, Value.pyIter]
      rw [meanStdL_all_str, meanStdL_all_str]
      · simp
      · intro v hv
        rcases List.mem_map.mp hv with ⟨f, _, rfl⟩
        exact ⟨f.1, rfl⟩
      · have hlen : (sortByKey (canonEntries (e :: es))).length = es.length + 1 := by
          rw [length_sortByKey, canonEntries_eq_map, List.length_map, List.length_cons]
        intro hmap
        have := congrArg List.length hmap
        simp [hlen] at this
      · intro v hv
        rcases List.mem_map.mp hv with ⟨f, _, rfl⟩
        exact ⟨f.1, rfl⟩
  | _ => rfl

theorem getFilterComp_canon (key : String) (dv : Value) (hdv : dv.canon = dv)
    (l : List Value) :
    getFilterComp key dv (l.map Value.canon) =
      (getFilterComp key dv l).map (List.map Value.canon) := by
  induction l with
  | nil => rfl
  | cons item rest ih =>
    simp only [List.map_cons, getFilterComp, getN_canon]
    cases hn : item.getN key with
    | none => rfl
    | some f =>
      simp only [Option.map_some, truthy_canon]
      by_cases hf : f.truthy = true
      · simp only [hf, if_true, getD_canon item key dv hdv]
        cases hd : item.getD key dv with
        | none => simp [truthy_canon, hf]
        | some w =>
          simp only [ih]
          cases getFilterComp key dv rest with
          | none => simp [truthy_canon, hf]
          | some tl => simp [truthy_canon, hf]
      · simp [truthy_canon, hf, ih]

theorem isEmpty_map (f : Value → Value) (l : List Value) : (l.map f).isEmpty = l.isEmpty := by
  cases l <;> rfl

theorem extractHoldPart_canon (ht : Value) :
    BehavioralAnalyzer.extractHoldPart ht.canon = BehavioralAnalyzer.extractHoldPart ht := by
  cases ht with
  | null => rfl
  | bool b => rfl
  | num q => rfl
  | str s => rfl
  | dict d =>
    rw [BehavioralAnalyzer.extractHoldPart, BehavioralAnalyzer.extractHoldPart, truthy_canon]
    by_cases h : (Value.dict d).truthy = true
    · simp only [h, if_true]
      have h1 : (Value.dict d).canon.index0 = none := by
        simp [Value.canon, Value.index0]
      have h2 : (Value.dict d).index0 = none := rfl
      rw [h1, h2]
    · simp [h]
  | list l =>
    rw [BehavioralAnalyzer.extractHoldPart, BehavioralAnalyzer.extractHoldPart, truthy_canon]
    by_cases h : (Value.list l).truthy = true
    · simp only [h, if_true]
      cases l with
      | nil => simp [Value.truthy] at h
      | cons x xs =>
        have hi : (Value.list (x :: xs)).canon.index0 = some x.canon := by
          simp [Value.canon, canonList, Value.index0]
        have hi2 : (Value.list (x :: xs)).index0 = some x := rfl
        rw [hi, hi2]
        simp only [isDict_canon]
        by_cases hx : x.isDict = true
        · simp only [hx, if_true]
          have hp : (Value.list (x :: xs)).canon.pyIter = some ((x :: xs).map Value.canon) := by
            simp [Value.canon, canonList_eq_map, Value.pyIter]
          have hp2 : (Value.list (x :: xs)).pyIter = some (x :: xs) := rfl
          rw [hp, hp2]
          dsimp only
          rw [getFilterComp_canon "hold_time" (Value.num 0) rfl]
          cases getFilterComp "hold_time" (.num 0) (x :: xs) with
          | none => rfl
          | some hv =>
            simp only [Option.map_some', isEmpty_map, meanStdL_canon]
        · simp only [hx, Bool.false_eq_true, if_false]
          rw [meanStdV_canon]
    · simp [h]

theorem extract_typing_canon (tp : Value) :
    BehavioralAnalyzer._extract_typing_features tp.canon =
      BehavioralAnalyzer._extract_typing_features tp := by
  rw [BehavioralAnalyzer._extract_typing_features, BehavioralAnalyzer._extract_typing_features,
    getD_canon tp "key_hold_times" (.list []) rfl]
  cases h1 : tp.getD "key_hold_times" (.list []) with
  | none => rfl
  | some ht =>
    simp only [Option.map_some']
    rw [getD_canon tp "flight_times" (.list []) rfl]
    cases h2 : tp.getD "flight_times" (.list []) with
    | none => rfl
    | some ft =>
      simp only [Option.map_some']
      rw [extractHoldPart_canon]
      cases BehavioralAnalyzer.extractHoldPart ht with
      | none => rfl
      | some holdFeats =>
        simp only [truthy_canon, meanStdV_canon]

theorem extract_touch_canon (tpat : Value) :
    BehavioralAnalyzer._extract_touch_features tpat.canon =
      BehavioralAnalyzer._extract_touch_features tpat := by
  rw [BehavioralAnalyzer._extract_touch_features, BehavioralAnalyzer._extract_touch_features,
    getD_canon tpat "swipe_speeds" (.list []) rfl]
  cases h1 : tpat.getD "swipe_speeds" (.list []) with
  | none => rfl
  | some sd =>
    simp only [Option.map_some']
    rw [getD_canon tpat "touch_pressures" (.list []) rfl]
    cases h2 : tpat.getD "touch_pressures" (.list []) with
    | none => rfl
    | some td =>
      simp only [Option.map_some', truthy_canon, meanStdV_canon]

theorem hasXY_canon (m : Value) : WebBehaviorAnalyzer.hasXY m.canon = WebBehaviorAnalyzer.hasXY m := by
  rw [WebBehaviorAnalyzer.hasXY, WebBehaviorAnalyzer.hasXY, pyContains_canon]
  cases pyContains m (.str "x") with
  | none => rfl
  | some b =>
    cases b with
    | false => rfl
    | true => simp only [if_true, pyContains_canon]

theorem anglesStep_canon (cur prev : Value) :
    WebBehaviorAnalyzer.anglesStep cur.canon prev.canon = WebBehaviorAnalyzer.anglesStep cur prev := by
  rw [WebBehaviorAnalyzer.anglesStep, WebBehaviorAnalyzer.anglesStep, hasXY_canon]
  cases WebBehaviorAnalyzer.hasXY cur with
  | none => rfl
  | some b1 =>
    cases b1 with
    | false => rfl
    | true =>
      simp only [if_true, hasXY_canon]
      cases WebBehaviorAnalyzer.hasXY prev with
      | none => rfl
      | some b2 =>
        cases b2 with
        | false => rfl
        | true =>
          simp only [if_true, sub_canon]
          cases cur.sub "x" with
          | none => rfl
          | some cx =>
            simp only [Option.map_some', toNum_canon]
            cases cx.toNum with
            | none => rfl
            | some cxn =>
              simp only [sub_canon]
              cases prev.sub "x" with
              | none => rfl
              | some px =>
                simp only [Option.map_some', toNum_canon]
                cases px.toNum with
                | none => rfl
                | some pxn =>
                  simp only [sub_canon]
                  cases cur.sub "y" with
                  | none => rfl
                  | some cy =>
                    simp only [Option.map_some', toNum_canon]
                    cases cy.toNum with
                    | none => rfl
                    | some cyn =>
                      simp only [sub_canon]
                      cases prev.sub "y" with
                      | none => rfl
                      | some py =>
                        simp only [Option.map_some', toNum_canon]

theorem anglesAll_canon : ∀ l : List Value,
    WebBehaviorAnalyzer.anglesAll (l.map Value.canon) = WebBehaviorAnalyzer.anglesAll l
  | [] => rfl
  | [_] => rfl
  | prev :: cur :: rest => by
    have hrec := anglesAll_canon (cur :: rest)
    simp only [List.map_cons] at hrec ⊢
    rw [WebBehaviorAnalyzer.anglesAll, WebBehaviorAnalyzer.anglesAll, anglesStep_canon, hrec]

theorem getFilterComp_keys (key : String) (dv : Value) (es : Entries) (h : es ≠ []) :
    getFilterComp key dv (es.map (fun e => Value.str e.1)) = none := by
  cases es with
  | nil => exact absurd rfl h
  | cons e es2 => rfl

theorem sortCanonEntries_ne_nil {d : Entries} (h : d ≠ []) :
    sortByKey (canonEntries d) ≠ [] := by
  intro hc
  have := congrArg List.length hc
  rw [length_sortByKey, canonEntries_eq_map, List.length_map] at this
  cases d with
  | nil => exact h rfl
  | cons e es => simp at this

theorem extract_mouse_canon (mm : Value) :
    WebBehaviorAnalyzer._extract_mouse_features mm.canon =
      WebBehaviorAnalyzer._extract_mouse_features mm := by
  cases mm with
  | null => rfl
  | bool b => rfl
  | num q => rfl
  | str s => rfl
  | dict d =>
    cases d with
    | nil => rfl
    | cons e es =>
      rw [WebBehaviorAnalyzer._extract_mouse_features,
        WebBehaviorAnalyzer._extract_mouse_features]
      have ht : (Value.dict (e :: es)).canon.truthy = true := by
        rw [truthy_canon]; rfl
      rw [ht]
      have ht2 : (Value.dict (e :: es)).truthy = true := rfl
      rw [ht2]
      simp only [Bool.not_true, Bool.false_eq_true, if_false]
      have hp : (Value.dict (e :: es)).canon.pyIter =
          some ((sortByKey (canonEntries (e :: es))).map (fun f => Value.str f.1)) := by
        simp [Value.canon, Value.pyIter]
      rw [hp]
      have hp2 : (Value.dict (e :: es)).pyIter =
          some ((e :: es).map (fun f => Value.str f.1)) := rfl
      rw [hp2]
      dsimp only
      rw [getFilterComp_keys _ _ _ (sortCanonEntries_ne_nil (by simp)),
        getFilterComp_keys _ _ _ (by simp)]
  | list l =>
    cases l with
    | nil => rfl
    | cons x xs =>
      rw [WebBehaviorAnalyzer._extract_mouse_features,
        WebBehaviorAnalyzer._extract_mouse_features]
      have ht : (Value.list (x :: xs)).canon.truthy = true := by
        rw [truthy_canon]; rfl
      rw [ht]
      have ht2 : (Value.list (x :: xs)).truthy = true := rfl
      rw [ht2]
      simp only [Bool.not_true, Bool.false_eq_true, if_false]
      have hp : (Value.list (x :: xs)).canon.pyIter = some ((x :: xs).map Value.canon) := by
        simp [Value.canon, canonList_eq_map, Value.pyIter]
      rw [hp]
      have hp2 : (Value.list (x :: xs)).pyIter = some (x :: xs) := rfl
      rw [hp2]
      dsimp only
      rw [getFilterComp_canon "speed" (Value.num 0) rfl]
      cases getFilterComp "speed" (.num 0) (x :: xs) with
      | none => rfl
      | some speeds =>
        simp only [Option.map_some', isEmpty_map, meanStdL_canon]
        cases hms : (if (!speeds.isEmpty) = true then
            match meanStdL speeds with
            | none => none
            | some ms => some (MouseFeatures.mk (some ms.1) (some ms.2) none)
          else some {}) with
        | none => simp [hms]
        | some f1 =>
          simp only
          rw [anglesAll_canon]

theorem any_pyEq_map_canon (x : Value) (l : List Value) :
    (l.map Value.canon).any (pyEq x.canon) = l.any (pyEq x) := by
  rw [List.any_map]
  refine congrArg l.any (funext fun a => ?_)
  simp only [Function.comp_apply, pyEq_canon_left, pyEq_canon_right]

theorem dedup_fold_canon (l : List Value) (acc : List Value) :
    (l.map Value.canon).foldl
        (fun acc x => if acc.any (pyEq x) then acc else acc ++ [x]) (acc.map Value.canon) =
      (l.foldl (fun acc x => if acc.any (pyEq x) then acc else acc ++ [x]) acc).map Value.canon := by
  induction l generalizing acc with
  | nil => rfl
  | cons x xs ih =>
    simp only [List.map_cons, List.foldl_cons, any_pyEq_map_canon]
    by_cases hb : acc.any (pyEq x) = true
    · rw [hb]
      simp only [if_true]
      exact ih acc
    · simp only [hb, Bool.false_eq_true, if_false]
      rw [show acc.map Value.canon ++ [x.canon] = (acc ++ [x]).map Value.canon by simp]
      exact ih (acc ++ [x])

theorem countP_pyEq_map_canon (l : List Value) (b : Value) :
    (l.map Value.canon).countP (fun y => pyEq y b.canon) = l.countP (fun y => pyEq y b) := by
  rw [List.countP_map]
  refine congrArg (fun p => List.countP p l) (funext fun a => ?_)
  simp only [Function.comp_apply, pyEq_canon_left, pyEq_canon_right]

theorem best_fold_canon (l : List Value) : ∀ (us : List Value) (u : Value),
    (us.map Value.canon).foldl
        (fun best x =>
          if (l.map Value.canon).countP (fun y => pyEq y best) <
              (l.map Value.canon).countP (fun y => pyEq y x) then x else best) u.canon =
      (us.foldl
        (fun best x =>
          if l.countP (fun y => pyEq y best) < l.countP (fun y => pyEq y x) then x
          else best) u).canon
  | [], u => rfl
  | x :: xs, u => by
    simp only [List.map_cons, List.foldl_cons, countP_pyEq_map_canon]
    by_cases hb : l.countP (fun y => pyEq y u) < l.countP (fun y => pyEq y x)
    · simp only [hb, if_true]
      exact best_fold_canon l xs x
    · simp only [hb, if_false]
      exact best_fold_canon l xs u

theorem all_hashable_map_canon (l : List Value) :
    (l.map Value.canon).all Value.hashable = l.all Value.hashable := by
  rw [List.all_map]
  refine congrArg l.all (funext fun a => ?_)
  simp only [Function.comp_apply, hashable_canon]

theorem pyModeOfSet_canon (l : List Value) :
    WebBehaviorAnalyzer.pyModeOfSet (l.map Value.canon) =
      (WebBehaviorAnalyzer.pyModeOfSet l).map Value.canon := by
  rw [WebBehaviorAnalyzer.pyModeOfSet, WebBehaviorAnalyzer.pyModeOfSet, all_hashable_map_canon]
  by_cases hh : l.all Value.hashable = true
  · simp only [hh, if_true]
    have hd := dedup_fold_canon l []
    simp only [List.map_nil] at hd
    rw [hd]
    cases hfold : l.foldl (fun acc x => if acc.any (pyEq x) then acc else acc ++ [x]) [] with
    | nil => rfl
    | cons u us =>
      simp only [List.map_cons]
      rw [best_fold_canon]
      rfl
  · simp [hh]

theorem canon_mapGetD (o : Option Value) (dflt : Value) :
    ((o.map Value.canon).getD dflt).canon = (o.getD dflt).canon := by
  cases o with
  | none => rfl
  | some w => simp [canon_canon]

theorem extract_scroll_atom (v : Value) (h : v.pyIter = none) :
    WebBehaviorAnalyzer._extract_scroll_features v = {} := by
  rw [WebBehaviorAnalyzer._extract_scroll_features]
  split
  · rfl
  · rw [h]

theorem extract_scroll_str (s : String) :
    WebBehaviorAnalyzer._extract_scroll_features (.str s) = {} := by
  rw [WebBehaviorAnalyzer._extract_scroll_features]
  split
  · rfl
  · cases hs : s.data with
    | nil => simp [Value.pyIter, hs, getFilterComp]
    | cons c cs => simp [Value.pyIter, hs, getFilterComp, Value.getN, Value.getD]

theorem scroll_upd_none {sf : ScrollFeatures} (h : sf.preferred_direction = none) :
    { sf with preferred_direction := sf.preferred_direction.map Value.canon } = sf := by
  obtain ⟨a, b, c⟩ := sf
  simp only at h
  subst h
  rfl

theorem scroll_eta {f1 : ScrollFeatures} (h : f1.preferred_direction = none) :
    f1 = { avg_scroll_speed := f1.avg_scroll_speed, scroll_speed_std := f1.scroll_speed_std,
           preferred_direction := none } := by
  obtain ⟨a, b, c⟩ := f1
  simp only at h
  subst h
  rfl

theorem extract_scroll_canon (se : Value) :
    WebBehaviorAnalyzer._extract_scroll_features se.canon =
      { WebBehaviorAnalyzer._extract_scroll_features se with
        preferred_direction :=
          (WebBehaviorAnalyzer._extract_scroll_features se).preferred_direction.map Value.canon } := by
  cases se with
  | null => rfl
  | bool b =>
    rw [show (Value.bool b).canon = Value.bool b from rfl,
      extract_scroll_atom (Value.bool b) rfl]
    rfl
  | num q =>
    rw [show (Value.num q).canon = Value.num q from rfl,
      extract_scroll_atom (Value.num q) rfl]
    rfl
  | str s =>
    rw [show (Value.str s).canon = Value.str s from rfl, extract_scroll_str]
    rfl
  | dict d =>
    cases d with
    | nil => rfl
    | cons e es =>
      rw [WebBehaviorAnalyzer._extract_scroll_features,
        WebBehaviorAnalyzer._extract_scroll_features]
      have ht : (Value.dict (e :: es)).canon.truthy = true := by rw [truthy_canon]; rfl
      have ht2 : (Value.dict (e :: es)).truthy = true := rfl
      rw [ht, ht2]
      simp only [Bool.not_true, Bool.false_eq_true, if_false]
      have hp : (Value.dict (e :: es)).canon.pyIter =
          some ((sortByKey (canonEntries (e :: es))).map (fun f => Value.str f.1)) := by
        simp [Value.canon, Value.pyIter]
      have hp2 : (Value.dict (e :: es)).pyIter =
          some ((e :: es).map (fun f => Value.str f.1)) := rfl
      rw [hp, hp2]
      dsimp only
      rw [getFilterComp_keys "speed" (Value.num 0) (sortByKey (canonEntries (e :: es)))
          (sortCanonEntries_ne_nil (List.cons_ne_nil e es)),
        getFilterComp_keys "speed" (Value.num 0) (e :: es) (List.cons_ne_nil e es)]
      rfl
  | list l =>
    cases l with
    | nil => rfl
    | cons x xs =>
      rw [WebBehaviorAnalyzer._extract_scroll_features,
        WebBehaviorAnalyzer._extract_scroll_features]
      have ht : (Value.list (x :: xs)).canon.truthy = true := by rw [truthy_canon]; rfl
      have ht2 : (Value.list (x :: xs)).truthy = true := rfl
      rw [ht, ht2]
      simp only [Bool.not_true, Bool.false_eq_true, if_false]
      have hp : (Value.list (x :: xs)).canon.pyIter = some ((x :: xs).map Value.canon) := by
        simp [Value.canon, canonList_eq_map, Value.pyIter]
      have hp2 : (Value.list (x :: xs)).pyIter = some (x :: xs) := rfl
      rw [hp, hp2]
      dsimp only
      rw [getFilterComp_canon "speed" (Value.num 0) rfl]
      cases getFilterComp "speed" (.num 0) (x :: xs) with
      | none => rfl
      | some speeds =>
        simp only [Option.map_some', isEmpty_map, meanStdL_canon]
        cases hms : (if (!speeds.isEmpty) = true then
            match meanStdL speeds with
            | none => none
            | some ms => some (ScrollFeatures.mk (some ms.1) (some ms.2) none)
          else some {}) with
        | none => rfl
        | some f1 =>
          have hf1 : f1.preferred_direction = none := by
            by_cases hs : (!speeds.isEmpty) = true
            · simp only [hs, if_true] at hms
              cases hm : meanStdL speeds with
              | none => rw [hm] at hms; simp at hms
              | some ms =>
                rw [hm] at hms
                simp only [Option.some.injEq] at hms
                rw [← hms]
            · simp only [hs, Bool.false_eq_true, if_false, Option.some.injEq] at hms
              rw [← hms]
          simp only
          rw [getFilterComp_canon "direction" (Value.str "") rfl]
          cases getFilterComp "direction" (.str "") (x :: xs) with
          | none =>
            simp only [hf1, Option.map_none']
            exact scroll_eta hf1
          | some directions =>
            simp only [Option.map_some', isEmpty_map]
            by_cases hd : (!directions.isEmpty) = true
            · simp only [hd, if_true]
              rw [pyModeOfSet_canon]
              cases WebBehaviorAnalyzer.pyModeOfSet directions with
              | none =>
                simp only [hf1, Option.map_none']
                exact scroll_eta hf1
              | some m => simp
            · simp only [hd, Bool.false_eq_true, if_false]
              simp only [hf1, Option.map_none']
              exact scroll_eta hf1

theorem extract_webtyping_canon (kt : Value) :
    WebBehaviorAnalyzer._extract_web_typing_features kt.canon =
      WebBehaviorAnalyzer._extract_web_typing_features kt := by
  cases kt with
  | null => rfl
  | bool b => rfl
  | num q => rfl
  | str s => rfl
  | dict d =>
    cases d with
    | nil => rfl
    | cons e es =>
      rw [WebBehaviorAnalyzer._extract_web_typing_features,
        WebBehaviorAnalyzer._extract_web_typing_features]
      have ht : (Value.dict (e :: es)).canon.truthy = true := by rw [truthy_canon]; rfl
      have ht2 : (Value.dict (e :: es)).truthy = true := rfl
      rw [ht, ht2]
      simp only [Bool.not_true, Bool.false_eq_true, if_false]
      have hp : (Value.dict (e :: es)).canon.pyIter =
          some ((sortByKey (canonEntries (e :: es))).map (fun f => Value.str f.1)) := by
        simp [Value.canon, Value.pyIter]
      have hp2 : (Value.dict (e :: es)).pyIter =
          some ((e :: es).map (fun f => Value.str f.1)) := rfl
      rw [hp, hp2]
      dsimp only
      rw [getFilterComp_keys "hold_time" (Value.num 0) (sortByKey (canonEntries (e :: es)))
          (sortCanonEntries_ne_nil (List.cons_ne_nil e es)),
        getFilterComp_keys "hold_time" (Value.num 0) (e :: es) (List.cons_ne_nil e es)]
  | list l =>
    cases l with
    | nil => rfl
    | cons x xs =>
      rw [WebBehaviorAnalyzer._extract_web_typing_features,
        WebBehaviorAnalyzer._extract_web_typing_features]
      have ht : (Value.list (x :: xs)).canon.truthy = true := by rw [truthy_canon]; rfl
      have ht2 : (Value.list (x :: xs)).truthy = true := rfl
      rw [ht, ht2]
      simp only [Bool.not_true, Bool.false_eq_true, if_false]
      have hp : (Value.list (x :: xs)).canon.pyIter = some ((x :: xs).map Value.canon) := by
        simp [Value.canon, canonList_eq_map, Value.pyIter]
      have hp2 : (Value.list (x :: xs)).pyIter = some (x :: xs) := rfl
      rw [hp, hp2]
      dsimp only
      rw [getFilterComp_canon "hold_time" (Value.num 0) rfl]
      cases getFilterComp "hold_time" (.num 0) (x :: xs) with
      | none => rfl
      | some hold_times =>
        simp only [Option.map_some']
        rw [getFilterComp_canon "next_key_delay" (Value.num 0) rfl]
        cases getFilterComp "next_key_delay" (.num 0) (x :: xs) with
        | none => rfl
        | some flight_times =>
          simp only [Option.map_some', isEmpty_map, meanStdL_canon]

theorem fp_falsy {v : Value} (h : v.truthy = false) :
    WebBehaviorAnalyzer._create_browser_fingerprint v = .dict [] := by
  unfold WebBehaviorAnalyzer._create_browser_fingerprint
  simp [h]

theorem fp_num (q : ℚ) :
    WebBehaviorAnalyzer._create_browser_fingerprint (Value.num q) = .dict [] := by
  unfold WebBehaviorAnalyzer._create_browser_fingerprint
  split <;> rfl

theorem fp_list (l : List Value) :
    WebBehaviorAnalyzer._create_browser_fingerprint (Value.list l) = .dict [] := by
  unfold WebBehaviorAnalyzer._create_browser_fingerprint
  split <;> rfl

theorem fp_dict_truthy {d : Entries} (h : (Value.dict d).truthy = true) :
    WebBehaviorAnalyzer._create_browser_fingerprint (Value.dict d) = Value.dict
      [("user_agent", (lookupFirst "userAgent" d).getD (.str "")),
       ("language", (lookupFirst "language" d).getD (.str "")),
       ("platform", (lookupFirst "platform" d).getD (.str "")),
       ("hardware_concurrency", (lookupFirst "hardwareConcurrency" d).getD (.str "")),
       ("device_memory", (lookupFirst "deviceMemory" d).getD (.str "")),
       ("screen_resolution", (lookupFirst "screen" d).getD (.dict [])),
       ("timezone", (lookupFirst "timezone" d).getD (.str "")),
       ("canvas_fingerprint", (lookupFirst "canvas" d).getD (.str "")),
       ("webgl_fingerprint", (lookupFirst "webgl" d).getD (.str ""))] := by
  unfold WebBehaviorAnalyzer._create_browser_fingerprint
  rw [if_pos h]

theorem fingerprint_canon (b : Value) :
    (WebBehaviorAnalyzer._create_browser_fingerprint b.canon).canon =
      (WebBehaviorAnalyzer._create_browser_fingerprint b).canon := by
  cases b with
  | null => rfl
  | bool bb => cases bb <;> rfl
  | num q =>
    have h1 : WebBehaviorAnalyzer._create_browser_fingerprint ((Value.num q).canon) =
        .dict [] := fp_num q
    rw [h1, fp_num q]
  | str s => rfl
  | list l =>
    have h1 : WebBehaviorAnalyzer._create_browser_fingerprint ((Value.list l).canon) =
        .dict [] := fp_list (canonList l)
    rw [h1, fp_list l]
  | dict d =>
    by_cases h : (Value.dict d).truthy = true
    · have hc : (Value.dict (sortByKey (canonEntries d))).truthy = true := by
        have := truthy_canon (Value.dict d)
        rw [h] at this
        exact this
      have e1 : WebBehaviorAnalyzer._create_browser_fingerprint ((Value.dict d).canon) =
          Value.dict
            [("user_agent",
               (lookupFirst "userAgent" (sortByKey (canonEntries d))).getD (.str "")),
             ("language", (lookupFirst "language" (sortByKey (canonEntries d))).getD (.str "")),
             ("platform", (lookupFirst "platform" (sortByKey (canonEntries d))).getD (.str "")),
             ("hardware_concurrency",
               (lookupFirst "hardwareConcurrency" (sortByKey (canonEntries d))).getD (.str "")),
             ("device_memory",
               (lookupFirst "deviceMemory" (sortByKey (canonEntries d))).getD (.str "")),
             ("screen_resolution",
               (lookupFirst "screen" (sortByKey (canonEntries d))).getD (.dict [])),
             ("timezone", (lookupFirst "timezone" (sortByKey (canonEntries d))).getD (.str "")),
             ("canvas_fingerprint",
               (lookupFirst "canvas" (sortByKey (canonEntries d))).getD (.str "")),
             ("webgl_fingerprint",
               (lookupFirst "webgl" (sortByKey (canonEntries d))).getD (.str ""))] :=
        fp_dict_truthy hc
      rw [e1, fp_dict_truthy h]
      simp only [lookupFirst_sortByKey, lookupFirst_canonEntries]
      rw [Value.canon, Value.canon]
      congr 1
      congr 1
      simp only [canonEntries, canon_mapGetD]
    · have h0 : (Value.dict d).truthy = false := by
        cases ht : (Value.dict d).truthy with
        | false => rfl
        | true => exact absurd ht h
      have hcf : ((Value.dict d).canon).truthy = false := by
        rw [truthy_canon]
        exact h0
      rw [fp_falsy hcf, fp_falsy h0]

theorem scroll_toValue_mapCanon (sf : ScrollFeatures) :
    (ScrollFeatures.toValue
        { sf with preferred_direction := sf.preferred_direction.map Value.canon }).canon =
      (ScrollFeatures.toValue sf).canon := by
  obtain ⟨a, b, c⟩ := sf
  cases c with
  | none => rfl
  | some v =>
    simp only [ScrollFeatures.toValue, Option.map_some']
    rw [Value.canon, Value.canon]
    congr 2
    rw [canonEntries_eq_map, canonEntries_eq_map]
    simp [canon_canon]

theorem signatureBody_canon (d : Value) :
    BehavioralAnalyzer.signatureBody d.canon = BehavioralAnalyzer.signatureBody d := by
  cases d with
  | null => rfl
  | bool b => rfl
  | num q => rfl
  | str s => rfl
  | list l => rfl
  | dict d0 =>
    rw [BehavioralAnalyzer.signatureBody, BehavioralAnalyzer.signatureBody,
      getD_canon _ "typing_pattern" (.dict []) rfl]
    cases h1 : (Value.dict d0).getD "typing_pattern" (.dict []) with
    | none => rfl
    | some tp =>
      simp only [Option.map_some']
      rw [getD_canon _ "touch_patterns" (.dict []) rfl]
      cases h2 : (Value.dict d0).getD "touch_patterns" (.dict []) with
      | none => rfl
      | some tpat =>
        simp only [Option.map_some']
        rw [getD_canon _ "device_characteristics" (.dict []) rfl]
        cases h3 : (Value.dict d0).getD "device_characteristics" (.dict []) with
        | none => rfl
        | some dc =>
          simp only [Option.map_some']
          rw [getD_canon dc "device_id" (.str "") rfl]
          cases h4 : dc.getD "device_id" (.str "") with
          | none => rfl
          | some did =>
            simp only [Option.map_some']
            rw [extract_typing_canon, extract_touch_canon]
            congr 1
            rw [jsonDumpsSorted, jsonDumpsSorted]
            congr 1
            rw [Value.canon, Value.canon]
            congr 2
            simp only [canonEntries, canon_canon]

theorem webSignatureBody_canon (d : Value) :
    WebBehaviorAnalyzer.webSignatureBody d.canon = WebBehaviorAnalyzer.webSignatureBody d := by
  cases d with
  | null => rfl
  | bool b => rfl
  | num q => rfl
  | str s => rfl
  | list l => rfl
  | dict d0 =>
    rw [WebBehaviorAnalyzer.webSignatureBody, WebBehaviorAnalyzer.webSignatureBody,
      getD_canon _ "mouse_movements" (.list []) rfl]
    cases h1 : (Value.dict d0).getD "mouse_movements" (.list []) with
    | none => rfl
    | some mm =>
      simp only [Option.map_some']
      rw [getD_canon _ "scroll_events" (.list []) rfl]
      cases h2 : (Value.dict d0).getD "scroll_events" (.list []) with
      | none => rfl
      | some se =>
        simp only [Option.map_some']
        rw [getD_canon _ "keystroke_timing" (.list []) rfl]
        cases h3 : (Value.dict d0).getD "keystroke_timing" (.list []) with
        | none => rfl
        | some kt =>
          simp only [Option.map_some']
          rw [getD_canon _ "browser_info" (.dict []) rfl]
          cases h4 : (Value.dict d0).getD "browser_info" (.dict []) with
          | none => rfl
          | some bi =>
            simp only [Option.map_some']
            rw [extract_mouse_canon, extract_webtyping_canon]
            congr 1
            rw [jsonDumpsSorted, jsonDumpsSorted]
            congr 1
            rw [Value.canon, Value.canon]
            congr 2
            simp only [canonEntries]
            rw [extract_scroll_canon se]
            simp only [canon_canon, fingerprint_canon, scroll_toValue_mapCanon]

/-- C1: for every current-sample value and stored-profile value, if an
exception is raised inside the verification computation (the body evaluates to
`none`), `verify_behavioral_match` (mobile) and `verify_web_behavior` (web)
return the fail-closed triple `is_match = false`, `confidence = 0`,
`risk = 1`; the triple carries no anomaly tags. -/
theorem claim_C1_fail_closed :
    (∀ c s : Value, BehavioralAnalyzer.verifyMatchBody c s = none →
      BehavioralAnalyzer.verify_behavioral_match c s = (false, 0, 1)) ∧
    (∀ c s : Value, WebBehaviorAnalyzer.verifyWebBody c s = none →
      WebBehaviorAnalyzer.verify_web_behavior c s = (false, 0, 1)) := by
  constructor
  · intro c s h
    rw [BehavioralAnalyzer.verify_behavioral_match, h]
  · intro c s h
    rw [WebBehaviorAnalyzer.verify_web_behavior, h]

/-- Witness for C1 at a concrete raising input: a non-dict current sample
makes the first `.get` raise on both platforms. -/
theorem claim_C1_fail_closed_witness :
    BehavioralAnalyzer.verify_behavioral_match (.num 0) (.dict []) = (false, 0, 1) ∧
    WebBehaviorAnalyzer.verify_web_behavior (.num 0) (.dict []) = (false, 0, 1) :=
  ⟨claim_C1_fail_closed.1 (.num 0) (.dict []) rfl,
   claim_C1_fail_closed.2 (.num 0) (.dict []) rfl⟩

/-- C3: the signature builders are deterministic with respect to key insertion
order — inputs with the same feature content (equal canonical forms, in
particular dicts whose keys were inserted in different orders) produce the
identical digest for any (e.g. the 256-bit-hex SHA-256) hash function,
because the assembled feature structure is serialized with lexicographically
sorted keys before hashing; and an exception during extraction yields the
empty string instead of propagating. -/
theorem claim_C3_signature_determinism :
    (∀ (hash : String → String) (d1 d2 : Value), d1.canon = d2.canon →
      BehavioralAnalyzer.create_biometric_signature hash d1 =
        BehavioralAnalyzer.create_biometric_signature hash d2 ∧
      WebBehaviorAnalyzer.create_web_behavioral_signature hash d1 =
        WebBehaviorAnalyzer.create_web_behavioral_signature hash d2) ∧
    (∀ (hash : String → String) (d : Value),
      (BehavioralAnalyzer.signatureBody d = none →
        BehavioralAnalyzer.create_biometric_signature hash d = "") ∧
      (WebBehaviorAnalyzer.webSignatureBody d = none →
        WebBehaviorAnalyzer.create_web_behavioral_signature hash d = "")) := by
  constructor
  · intro hash d1 d2 hc
    constructor
    · rw [BehavioralAnalyzer.create_biometric_signature,
        BehavioralAnalyzer.create_biometric_signature,
        ← signatureBody_canon d1, ← signatureBody_canon d2, hc]
    · rw [WebBehaviorAnalyzer.create_web_behavioral_signature,
        WebBehaviorAnalyzer.create_web_behavioral_signature,
        ← webSignatureBody_canon d1, ← webSignatureBody_canon d2, hc]
  · intro hash d
    constructor
    · intro h
      rw [BehavioralAnalyzer.create_biometric_signature, h]
    · intro h
      rw [WebBehaviorAnalyzer.create_web_behavioral_signature, h]

/-- Witness for C3: the same biometric content with keys inserted in two
different orders (at both nesting levels) yields identical signatures, and a
non-dict input yields the empty string. -/
theorem claim_C3_signature_determinism_witness :
    (BehavioralAnalyzer.create_biometric_signature (fun s => s)
        (.dict [("typing_pattern", .dict [("key_hold_times", .list [.num 150]),
                                          ("flight_times", .list [.num 10, .num 20])]),
                ("device_characteristics", .dict [("device_id", .str "dev-1")])]) =
      BehavioralAnalyzer.create_biometric_signature (fun s => s)
        (.dict [("device_characteristics", .dict [("device_id", .str "dev-1")]),
                ("typing_pattern", .dict [("flight_times", .list [.num 10, .num 20]),
                                          ("key_hold_times", .list [.num 150])])]) ∧
     WebBehaviorAnalyzer.create_web_behavioral_signature (fun s => s)
        (.dict [("typing_pattern", .dict [("key_hold_times", .list [.num 150]),
                                          ("flight_times", .list [.num 10, .num 20])]),
                ("device_characteristics", .dict [("device_id", .str "dev-1")])]) =
      WebBehaviorAnalyzer.create_web_behavioral_signature (fun s => s)
        (.dict [("device_characteristics", .dict [("device_id", .str "dev-1")]),
                ("typing_pattern", .dict [("flight_times", .list [.num 10, .num 20]),
                                          ("key_hold_times", .list [.num 150])])])) ∧
    (BehavioralAnalyzer.create_biometric_signature (fun s => s) (.num 3) = "" ∧
     WebBehaviorAnalyzer.create_web_behavioral_signature (fun s => s) (.num 3) = "") :=
  ⟨claim_C3_signature_determinism.1 (fun s => s) _ _ rfl,
   (claim_C3_signature_determinism.2 (fun s => s) (.num 3)).1 rfl,
   (claim_C3_signature_determinism.2 (fun s => s) (.num 3)).2 rfl⟩

/-- C4: the decision mapping over any outcome triple, for both view code paths:
match with confidence ≥ 0.70 gives `success`/verified/no challenge; otherwise
confidence ≥ 0.50 gives `suspicious`/not verified/OTP challenge; otherwise
`failed`/not verified/no challenge. -/
theorem claim_C4_decision_mapping :
    ∀ (is_match : Bool) (confidence risk : ℚ),
      ((is_match = true ∧ (7:ℚ)/10 ≤ confidence) →
        (prepare_verification_result is_match confidence risk).status = "success" ∧
        (prepare_verification_result is_match confidence risk).is_verified = true ∧
        (prepare_verification_result is_match confidence risk).requires_challenge = false ∧
        (biometric_verification_decision is_match confidence risk).status = "success" ∧
        (biometric_verification_decision is_match confidence risk).is_verified = true ∧
        (biometric_verification_decision is_match confidence risk).requires_challenge = false) ∧
      (¬(is_match = true ∧ (7:ℚ)/10 ≤ confidence) → (5:ℚ)/10 ≤ confidence →
        (prepare_verification_result is_match confidence risk).status = "suspicious" ∧
        (prepare_verification_result is_match confidence risk).is_verified = false ∧
        (prepare_verification_result is_match confidence risk).requires_challenge = true ∧
        (prepare_verification_result is_match confidence risk).challenge_type = some "otp" ∧
        (biometric_verification_decision is_match confidence risk).status = "suspicious" ∧
        (biometric_verification_decision is_match confidence risk).is_verified = false ∧
        (biometric_verification_decision is_match confidence risk).requires_challenge = true ∧
        (biometric_verification_decision is_match confidence risk).challenge_type = some "otp") ∧
      (¬(is_match = true ∧ (7:ℚ)/10 ≤ confidence) → confidence < (5:ℚ)/10 →
        (prepare_verification_result is_match confidence risk).status = "failed" ∧
        (prepare_verification_result is_match confidence risk).is_verified = false ∧
        (prepare_verification_result is_match confidence risk).requires_challenge = false ∧
        (biometric_verification_decision is_match confidence risk).status = "failed" ∧
        (biometric_verification_decision is_match confidence risk).is_verified = false ∧
        (biometric_verification_decision is_match confidence risk).requires_challenge = false) := by
  intro is_match confidence risk
  refine ⟨?_, ?_, ?_⟩
  · rintro ⟨hm, hc⟩
    subst hm
    simp [prepare_verification_result, biometric_verification_decision, hc]
  · intro hn hc5
    have hb : (is_match && decide ((7:ℚ)/10 ≤ confidence)) = false := by
      cases him : is_match with
      | false => rfl
      | true =>
        have : ¬((7:ℚ)/10 ≤ confidence) := fun hle => hn ⟨him, hle⟩
        simp [this]
    simp [prepare_verification_result, biometric_verification_decision, hb, hc5]
  · intro hn hclt
    have hb : (is_match && decide ((7:ℚ)/10 ≤ confidence)) = false := by
      cases him : is_match with
      | false => rfl
      | true =>
        have : ¬((7:ℚ)/10 ≤ confidence) := fun hle => hn ⟨him, hle⟩
        simp [this]
    have hc5 : ¬((5:ℚ)/10 ≤ confidence) := not_le.mpr hclt
    simp [prepare_verification_result, biometric_verification_decision, hb, hc5]

/-- Witness for C4 at the three decision regions
(`0.75`-match, `0.55`, `0.2`). -/
theorem claim_C4_decision_mapping_witness :
    (prepare_verification_result true (75/100) 0).status = "success" ∧
    (prepare_verification_result false (55/100) 0).status = "suspicious" ∧
    (prepare_verification_result false (55/100) 0).challenge_type = some "otp" ∧
    (prepare_verification_result false (2/10) 0).status = "failed" :=
  ⟨((claim_C4_decision_mapping true (75/100) 0).1 ⟨rfl, by norm_num⟩).1,
   ((claim_C4_decision_mapping false (55/100) 0).2.1 (by simp) (by norm_num)).1,
   ((claim_C4_decision_mapping false (55/100) 0).2.1 (by simp) (by norm_num)).2.2.2.1,
   ((claim_C4_decision_mapping false (2/10) 0).2.2 (by simp) (by norm_num)).1⟩

/-- C6: with a stored baseline typing speed of 150 and a current sample whose
extracted average hold time is 175, the relative difference is 1/6 ≤ 0.2, so
the typing channel scores 0.7; with no other channel in the current sample and
the typing weight 0.5, `verify_behavioral_match` returns confidence 0.35. -/
theorem claim_C6_typing_threshold_scenario :
    ∀ (tp s hv : Value),
      (BehavioralAnalyzer._extract_typing_features tp).avg_hold_time = some 175 →
      tp.truthy = true →
      s.getN "typical_hold_times" = some hv → hv.truthy = true →
      s.getD "avg_typing_speed" (.num 0) = some (.num 150) →
      BehavioralAnalyzer._verify_typing_pattern tp s = 7/10 ∧
      (BehavioralAnalyzer.verify_behavioral_match
          (.dict [("typing_pattern", tp)]) s).2.1 = 7/20 := by
  intro tp s hv havg htp hthl hhv hsp
  have hscore : BehavioralAnalyzer._verify_typing_pattern tp s = 7/10 := by
    rw [BehavioralAnalyzer._verify_typing_pattern, BehavioralAnalyzer.verifyTypingBody,
      havg, hthl]
    simp only [hhv, if_true, hsp]
    have hdiff : |(150:ℚ) - 175| / max (150:ℚ) 1 = 1/6 := by norm_num
    simp only [Value.toNum, hdiff]
    norm_num
  refine ⟨hscore, ?_⟩
  have hg1 : (Value.dict [("typing_pattern", tp)]).getN "typing_pattern" = some tp := by
    simp [Value.getN, Value.getD, lookupFirst]
  have hg2 : (Value.dict [("typing_pattern", tp)]).getN "touch_patterns" = some .null := by
    simp [Value.getN, Value.getD, lookupFirst]
  have hg3 : (Value.dict [("typing_pattern", tp)]).getN "device_characteristics" =
      some .null := by
    simp [Value.getN, Value.getD, lookupFirst]
  have hG1 : BehavioralAnalyzer.typingGuard (.dict [("typing_pattern", tp)]) s =
      some (some tp) := by
    rw [BehavioralAnalyzer.typingGuard, hg1]
    dsimp only
    rw [htp]
    simp only [if_true, hthl]
    rw [hhv]
    simp only [if_true]
  have hG2 : BehavioralAnalyzer.touchGuard (.dict [("typing_pattern", tp)]) s = some none := by
    rw [BehavioralAnalyzer.touchGuard, hg2]
    exact rfl
  have hG3 : BehavioralAnalyzer.deviceGuard (.dict [("typing_pattern", tp)]) = some none := by
    rw [BehavioralAnalyzer.deviceGuard, hg3]
    exact rfl
  rw [BehavioralAnalyzer.verify_behavioral_match, BehavioralAnalyzer.verifyMatchBody,
    hG1, hG2, hG3]
  simp only [Option.map_some', Option.map_none', Option.toList_some, Option.toList_none,
    List.append_nil, List.isEmpty_cons, List.sum_cons, List.sum_nil, hscore]
  norm_num

theorem meanStdL_single (q : ℚ) : meanStdL [Value.num q] = some (q, 0) := by
  rw [meanStdL]
  simp only [List.mapM_cons, List.mapM_nil, Value.toNum, Option.pure_def, Option.bind_eq_bind,
    Option.some_bind]
  norm_num

theorem extract_typing_single (q : ℚ) :
    BehavioralAnalyzer._extract_typing_features
        (.dict [("key_hold_times", .list [.num q])]) =
      { avg_hold_time := some q, hold_time_std := some 0 } := by
  rw [BehavioralAnalyzer._extract_typing_features]
  have h1 : (Value.dict [("key_hold_times", Value.list [Value.num q])]).getD
      "key_hold_times" (.list []) = some (.list [.num q]) := rfl
  have h2 : (Value.dict [("key_hold_times", Value.list [Value.num q])]).getD
      "flight_times" (.list []) = some (.list []) := rfl
  rw [h1, h2]
  have h3 : BehavioralAnalyzer.extractHoldPart (.list [.num q]) = some (some (q, 0)) := by
    rw [BehavioralAnalyzer.extractHoldPart]
    have ht : (Value.list [Value.num q]).truthy = true := rfl
    rw [ht]
    simp only [if_true]
    have hi : (Value.list [Value.num q]).index0 = some (.num q) := rfl
    rw [hi]
    dsimp only
    have hd : (Value.num q).isDict = false := rfl
    rw [hd]
    simp only [Bool.false_eq_true, if_false]
    rw [show meanStdV (Value.list [Value.num q]) = meanStdL [Value.num q] from rfl,
      meanStdL_single]
  dsimp only
  rw [h3]
  dsimp only
  have hf : (Value.list ([] : List Value)).truthy = false := rfl
  simp only [hf, Bool.false_eq_true, if_false]

/-- Witness for C6: hold times `[175]`, stored typing speed `150`. -/
theorem claim_C6_typing_threshold_scenario_witness :
    BehavioralAnalyzer._verify_typing_pattern
        (.dict [("key_hold_times", .list [.num 175])])
        (.dict [("typical_hold_times", .list [.num 1]), ("avg_typing_speed", .num 150)]) =
      7/10 ∧
    (BehavioralAnalyzer.verify_behavioral_match
        (.dict [("typing_pattern", .dict [("key_hold_times", .list [.num 175])])])
        (.dict [("typical_hold_times", .list [.num 1]),
                ("avg_typing_speed", .num 150)])).2.1 = 7/20 :=
  claim_C6_typing_threshold_scenario
    (.dict [("key_hold_times", .list [.num 175])])
    (.dict [("typical_hold_times", .list [.num 1]), ("avg_typing_speed", .num 150)])
    (.list [.num 1]) (by rw [extract_typing_single]) rfl rfl rfl rfl

/-- C9: an empty stored browser fingerprint makes `_verify_browser_fingerprint`
return `0.0`, which is below the `0.3` mismatch threshold, so
`_detect_web_anomalies` flags `browser_fingerprint_mismatch` for every current
sample dict — a freshly enrolled user with no stored fingerprint is always
flagged. -/
theorem claim_C9_empty_fingerprint_always_flagged :
    (∀ cb : Value, WebBehaviorAnalyzer._verify_browser_fingerprint cb (.dict []) = 0 ∧
      WebBehaviorAnalyzer._verify_browser_fingerprint cb (.dict []) < 3/10) ∧
    (∀ c s mm : Value,
      c.getD "mouse_movements" (.list []) = some mm →
      s.getD "browser_fingerprint" (.dict []) = some (.dict []) →
      "browser_fingerprint_mismatch" ∈ WebBehaviorAnalyzer._detect_web_anomalies c s) := by
  have hz : ∀ cb : Value, WebBehaviorAnalyzer._verify_browser_fingerprint cb (.dict []) = 0 :=
    fun cb => rfl
  constructor
  · intro cb
    exact ⟨hz cb, by rw [hz cb]; norm_num⟩
  · intro c s mm h1 h2
    rw [WebBehaviorAnalyzer._detect_web_anomalies, h1]
    have hbi : ∃ cb, c.getD "browser_info" (.dict []) = some cb := by
      cases c with
      | dict d => exact ⟨_, rfl⟩
      | null => simp [Value.getD] at h1
      | bool b => simp [Value.getD] at h1
      | num q => simp [Value.getD] at h1
      | str ss => simp [Value.getD] at h1
      | list l => simp [Value.getD] at h1
    rcases hbi with ⟨cb, hcb⟩
    dsimp only
    rw [hcb, h2]
    dsimp only
    rw [hz cb]
    have h03 : ((0:ℚ) < 3/10) = True := by norm_num
    simp only [h03, if_true, if_pos]
    cases hm : (WebBehaviorAnalyzer._extract_mouse_features mm).mouse_speed_std with
    | none => simp
    | some sd =>
      by_cases hsd : sd < 1/100 <;> simp [hsd]

/-- Witness for C9: a profile with no stored fingerprint flags any sample. -/
theorem claim_C9_empty_fingerprint_always_flagged_witness :
    WebBehaviorAnalyzer._verify_browser_fingerprint
        (.dict [("userAgent", .str "ua")]) (.dict []) = 0 ∧
    "browser_fingerprint_mismatch" ∈ WebBehaviorAnalyzer._detect_web_anomalies
        (.dict [("browser_info", .dict [("userAgent", .str "ua")])]) (.dict []) :=
  ⟨(claim_C9_empty_fingerprint_always_flagged.1 (.dict [("userAgent", .str "ua")])).1,
   claim_C9_empty_fingerprint_always_flagged.2
     (.dict [("browser_info", .dict [("userAgent", .str "ua")])]) (.dict [])
     (.list []) rfl rfl⟩

/-- C10: a mouse-movement list of event dicts whose speed comprehension
collects exactly one (necessarily nonzero and numeric) speed has extracted
`mouse_speed_std` equal to `0` — the single-element case — which is below the
robotic threshold, so `_detect_web_anomalies` flags `robotic_mouse_movements`. -/
theorem claim_C10_single_speed_robotic :
    ∀ (c s : Value) (ml : List Value) (q : ℚ),
      c.getD "mouse_movements" (.list []) = some (.list ml) →
      getFilterComp "speed" (.num 0) ml = some [.num q] →
      (WebBehaviorAnalyzer._extract_mouse_features (.list ml)).mouse_speed_std = some 0 ∧
      "robotic_mouse_movements" ∈ WebBehaviorAnalyzer._detect_web_anomalies c s := by
  intro c s ml q h1 h2
  have hextract :
      (WebBehaviorAnalyzer._extract_mouse_features (.list ml)).mouse_speed_std = some 0 := by
    cases ml with
    | nil => simp [getFilterComp] at h2
    | cons x xs =>
      rw [WebBehaviorAnalyzer._extract_mouse_features]
      have ht : (Value.list (x :: xs)).truthy = true := rfl
      rw [ht]
      simp only [Bool.not_true, Bool.false_eq_true, if_false]
      have hp : (Value.list (x :: xs)).pyIter = some (x :: xs) := rfl
      rw [hp]
      dsimp only
      rw [h2]
      dsimp only
      simp only [List.isEmpty_cons, Bool.not_false, if_true, meanStdL_single]
      cases WebBehaviorAnalyzer.anglesAll (x :: xs) with
      | none => rfl
      | some movement_angles =>
        by_cases ha : (!movement_angles.isEmpty) = true <;> simp [ha]
  refine ⟨hextract, ?_⟩
  rw [WebBehaviorAnalyzer._detect_web_anomalies, h1]
  dsimp only
  rw [hextract]
  have h01 : ((0:ℚ) < 1/100) = True := by norm_num
  simp only [h01, if_true, if_pos]
  cases (match c.getD "browser_info" (.dict []) with
    | none => none
    | some cb =>
      match s.getD "browser_fingerprint" (.dict []) with
      | none => none
      | some sfp =>
        some (if WebBehaviorAnalyzer._verify_browser_fingerprint cb sfp < 3/10
              then ["browser_fingerprint_mismatch"] else [])) with
  | none => simp
  | some a2 => simp

/-- Witness for C10: a single mouse event with speed `5`. -/
theorem claim_C10_single_speed_robotic_witness :
    (WebBehaviorAnalyzer._extract_mouse_features
        (.list [.dict [("speed", .num 5)]])).mouse_speed_std = some 0 ∧
    "robotic_mouse_movements" ∈ WebBehaviorAnalyzer._detect_web_anomalies
        (.dict [("mouse_movements", .list [.dict [("speed", .num 5)]])]) (.dict []) :=
  claim_C10_single_speed_robotic
    (.dict [("mouse_movements", .list [.dict [("speed", .num 5)]])]) (.dict [])
    [.dict [("speed", .num 5)]] 5 rfl rfl

/-- C7: when only the typing channel is present in the current sample (touch
and device values falsy or absent), the overall confidence equals the typing
channel score times its 0.5 weight alone — absent channels contribute nothing
and their weights are dropped, not redistributed. -/
theorem claim_C7_typing_only_channel :
    ∀ (c s tv tc dv : Value),
      c.getN "typing_pattern" = some tv → tv.truthy = true →
      c.getN "touch_patterns" = some tc → tc.truthy = false →
      c.getN "device_characteristics" = some dv → dv.truthy = false →
      s.isDict = true →
      (BehavioralAnalyzer.verify_behavioral_match c s).2.1 =
        BehavioralAnalyzer._verify_typing_pattern tv s * (5/10) := by
  intro c s tv tc dv h1 htv h2 htc h3 hdv hsd
  have hth : ∃ hv, s.getN "typical_hold_times" = some hv := by
    cases s with
    | dict d => exact ⟨_, rfl⟩
    | null => simp [Value.isDict] at hsd
    | bool b => simp [Value.isDict] at hsd
    | num q => simp [Value.isDict] at hsd
    | str ss => simp [Value.isDict] at hsd
    | list l => simp [Value.isDict] at hsd
  rcases hth with ⟨hv, hhv⟩
  have hG2 : BehavioralAnalyzer.touchGuard c s = some none := by
    rw [BehavioralAnalyzer.touchGuard, h2]
    dsimp only
    rw [htc]
    simp only [Bool.false_eq_true, if_false]
  have hG3 : BehavioralAnalyzer.deviceGuard c = some none := by
    rw [BehavioralAnalyzer.deviceGuard, h3]
    dsimp only
    rw [hdv]
    simp only [Bool.false_eq_true, if_false]
  rw [BehavioralAnalyzer.verify_behavioral_match, BehavioralAnalyzer.verifyMatchBody,
    BehavioralAnalyzer.typingGuard, h1]
  dsimp only
  rw [htv]
  simp only [if_true]
  rw [hhv]
  dsimp only
  rw [hG2, hG3]
  dsimp only
  cases hb : hv.truthy with
  | true =>
    simp only [if_true]
    dsimp only [Option.toList]
    norm_num [List.sum_cons, List.sum_nil]
  | false =>
    simp only [Bool.false_eq_true, if_false]
    dsimp only [Option.toList]
    have hz : BehavioralAnalyzer._verify_typing_pattern tv s = 0 := by
      rw [BehavioralAnalyzer._verify_typing_pattern, BehavioralAnalyzer.verifyTypingBody]
      cases (BehavioralAnalyzer._extract_typing_features tv).avg_hold_time with
      | none => norm_num
      | some cur =>
        rw [hhv]
        dsimp only
        rw [hb]
        simp only [Bool.false_eq_true, if_false]
        norm_num
    rw [hz]
    norm_num

/-- Witness for C7: only a typing channel in the sample. -/
theorem claim_C7_typing_only_channel_witness :
    (BehavioralAnalyzer.verify_behavioral_match
        (.dict [("typing_pattern", .dict [("key_hold_times", .list [.num 150])])])
        (.dict [("typical_hold_times", .list [.num 1]),
                ("avg_typing_speed", .num 150)])).2.1 =
      BehavioralAnalyzer._verify_typing_pattern
        (.dict [("key_hold_times", .list [.num 150])])
        (.dict [("typical_hold_times", .list [.num 1]),
                ("avg_typing_speed", .num 150)]) * (5/10) :=
  claim_C7_typing_only_channel
    (.dict [("typing_pattern", .dict [("key_hold_times", .list [.num 150])])])
    (.dict [("typical_hold_times", .list [.num 1]), ("avg_typing_speed", .num 150)])
    (.dict [("key_hold_times", .list [.num 150])]) .null .null
    rfl rfl rfl rfl rfl rfl rfl

theorem verify_typing_range (ct sp : Value) :
    0 ≤ BehavioralAnalyzer._verify_typing_pattern ct sp ∧
      BehavioralAnalyzer._verify_typing_pattern ct sp ≤ 7/10 := by
  rw [BehavioralAnalyzer._verify_typing_pattern]
  cases hb : BehavioralAnalyzer.verifyTypingBody ct sp with
  | none => norm_num
  | some v =>
    rw [BehavioralAnalyzer.verifyTypingBody] at hb
    repeat' split at hb
    all_goals simp only [Option.some.injEq, reduceCtorEq] at hb
    all_goals subst hb
    all_goals simp only [Option.getD_some]
    all_goals (repeat' split)
    all_goals norm_num

theorem touchSwipeStep_range (cf : TouchFeatures) (sp : Value) (s1 : ℚ)
    (h : BehavioralAnalyzer.touchSwipeStep cf sp = some s1) : 0 ≤ s1 ∧ s1 ≤ 5/10 := by
  rw [BehavioralAnalyzer.touchSwipeStep] at h
  repeat' split at h
  all_goals simp only [Option.some.injEq, reduceCtorEq] at h
  all_goals subst h
  all_goals norm_num

theorem verify_touch_range (ct sp : Value) :
    0 ≤ BehavioralAnalyzer._verify_touch_patterns ct sp ∧
      BehavioralAnalyzer._verify_touch_patterns ct sp ≤ 1 := by
  rw [BehavioralAnalyzer._verify_touch_patterns]
  cases hb : BehavioralAnalyzer.verifyTouchBody ct sp with
  | none => norm_num
  | some v =>
    rw [BehavioralAnalyzer.verifyTouchBody] at hb
    cases hs : BehavioralAnalyzer.touchSwipeStep
        (BehavioralAnalyzer._extract_touch_features ct) sp with
    | none => rw [hs] at hb; simp at hb
    | some s1 =>
      rw [hs] at hb
      dsimp only at hb
      obtain ⟨hs1a, hs1b⟩ := touchSwipeStep_range _ _ _ hs
      repeat' split at hb
      all_goals simp only [Option.some.injEq, reduceCtorEq] at hb
      all_goals subst hb
      all_goals simp only [Option.getD_some]
      all_goals exact ⟨le_min (by linarith) (by norm_num), min_le_right _ _⟩

theorem verify_device_range (cd sp : Value) :
    0 ≤ BehavioralAnalyzer._verify_device cd sp ∧
      BehavioralAnalyzer._verify_device cd sp ≤ 1 := by
  rw [BehavioralAnalyzer._verify_device]
  cases hb : BehavioralAnalyzer.verifyDeviceBody cd sp with
  | none => norm_num
  | some v =>
    rw [BehavioralAnalyzer.verifyDeviceBody] at hb
    cases h1 : cd.getN "device_id" with
    | none => rw [h1] at hb; simp at hb
    | some did =>
      rw [h1] at hb
      dsimp only at hb
      cases h2 : sp.getD "trusted_devices" (.list []) with
      | none => rw [h2] at hb; simp at hb
      | some td =>
        rw [h2] at hb
        dsimp only at hb
        have hchain : ∀ hb2 : (match cd.getN "os" with
            | none => none
            | some current_os =>
              match sp.getD "device_characteristics" (.dict []) with
              | none => none
              | some dc =>
                match dc.getN "typical_os" with
                | none => none
                | some stored_typical_os =>
                  some (if current_os.truthy && stored_typical_os.truthy &&
                          pyEq current_os stored_typical_os then 5/10 else 0)) = some v,
            0 ≤ (some v).getD 0 ∧ (some v).getD 0 ≤ 1 := by
          intro hb2
          repeat' split at hb2
          all_goals simp only [Option.some.injEq, reduceCtorEq] at hb2
          all_goals subst hb2
          all_goals simp only [Option.getD_some]
          all_goals norm_num
        by_cases h3 : did.truthy = true
        · simp only [h3, if_true] at hb
          cases h4 : pyContains td did with
          | none => rw [h4] at hb; simp at hb
          | some b =>
            rw [h4] at hb
            dsimp only at hb
            cases b with
            | true =>
              simp only [if_true, Option.some.injEq] at hb
              subst hb
              norm_num
            | false =>
              simp only [Bool.false_eq_true, if_false] at hb
              exact hchain hb
        · rw [if_neg h3] at hb
          dsimp only at hb
          simp only [Bool.false_eq_true, if_false] at hb
          exact hchain hb

theorem verify_mouse_range (cm sp : Value) :
    0 ≤ WebBehaviorAnalyzer._verify_mouse_patterns cm sp ∧
      WebBehaviorAnalyzer._verify_mouse_patterns cm sp ≤ 7/10 := by
  rw [WebBehaviorAnalyzer._verify_mouse_patterns]
  cases hb : WebBehaviorAnalyzer.verifyMouseBody cm sp with
  | none => norm_num
  | some v =>
    rw [WebBehaviorAnalyzer.verifyMouseBody] at hb
    repeat' split at hb
    all_goals simp only [Option.some.injEq, reduceCtorEq] at hb
    all_goals subst hb
    all_goals simp only [Option.getD_some]
    all_goals norm_num

theorem webHoldStep_range (cf : TypingFeatures) (sp : Value) (s1 : ℚ)
    (h : WebBehaviorAnalyzer.webHoldStep cf sp = some s1) : 0 ≤ s1 ∧ s1 ≤ 5/10 := by
  rw [WebBehaviorAnalyzer.webHoldStep] at h
  repeat' split at h
  all_goals simp only [Option.some.injEq, reduceCtorEq] at h
  all_goals subst h
  all_goals norm_num

theorem verify_webtyping_range (ct sp : Value) :
    0 ≤ WebBehaviorAnalyzer._verify_web_typing ct sp ∧
      WebBehaviorAnalyzer._verify_web_typing ct sp ≤ 1 := by
  rw [WebBehaviorAnalyzer._verify_web_typing]
  cases hb : WebBehaviorAnalyzer.verifyWebTypingBody ct sp with
  | none => norm_num
  | some v =>
    rw [WebBehaviorAnalyzer.verifyWebTypingBody] at hb
    cases hs : WebBehaviorAnalyzer.webHoldStep
        (WebBehaviorAnalyzer._extract_web_typing_features ct) sp with
    | none => rw [hs] at hb; simp at hb
    | some s1 =>
      rw [hs] at hb
      dsimp only at hb
      obtain ⟨hs1a, hs1b⟩ := webHoldStep_range _ _ _ hs
      repeat' split at hb
      all_goals simp only [Option.some.injEq, reduceCtorEq] at hb
      all_goals subst hb
      all_goals simp only [Option.getD_some]
      all_goals exact ⟨le_min (by linarith) (by norm_num), min_le_right _ _⟩

theorem verify_scroll_range (cs sp : Value) :
    0 ≤ WebBehaviorAnalyzer._verify_scroll_behavior cs sp ∧
      WebBehaviorAnalyzer._verify_scroll_behavior cs sp ≤ 1 := by
  rw [WebBehaviorAnalyzer._verify_scroll_behavior]
  cases hb : WebBehaviorAnalyzer.verifyScrollBody cs sp with
  | none => norm_num
  | some v =>
    rw [WebBehaviorAnalyzer.verifyScrollBody] at hb
    repeat' split at hb
    all_goals simp only [Option.some.injEq, reduceCtorEq] at hb
    all_goals subst hb
    all_goals simp only [Option.getD_some]
    all_goals norm_num

theorem verify_browser_range (cb sfp : Value) :
    0 ≤ WebBehaviorAnalyzer._verify_browser_fingerprint cb sfp ∧
      WebBehaviorAnalyzer._verify_browser_fingerprint cb sfp ≤ 1 := by
  rw [WebBehaviorAnalyzer._verify_browser_fingerprint]
  cases hb : WebBehaviorAnalyzer.verifyBrowserFpBody cb sfp with
  | none => norm_num
  | some v =>
    rw [WebBehaviorAnalyzer.verifyBrowserFpBody] at hb
    cases sfp with
    | dict d =>
      dsimp only [Value.pyLen, Value.pyItems] at hb
      by_cases hd : d.length = 0
      · simp only [hd, if_pos, Option.some.injEq] at hb
        subst hb
        norm_num
      · simp only [hd, if_false, Option.some.injEq] at hb
        subst hb
        simp only [Option.getD_some]
        constructor
        · positivity
        · rw [div_le_one (by positivity)]
          exact_mod_cast Nat.cast_le.mpr (List.countP_le_length _)
    | str s =>
      dsimp only [Value.pyLen, Value.pyItems] at hb
      by_cases hs : s.length = 0
      · simp only [hs, if_pos, Option.some.injEq] at hb
        subst hb
        norm_num
      · simp only [hs, if_false, reduceCtorEq] at hb
    | list l =>
      dsimp only [Value.pyLen, Value.pyItems] at hb
      by_cases hl : l.length = 0
      · simp only [hl, if_pos, Option.some.injEq] at hb
        subst hb
        norm_num
      · simp only [hl, if_false, reduceCtorEq] at hb
    | null => simp [Value.pyLen] at hb
    | bool b => simp [Value.pyLen] at hb
    | num q => simp [Value.pyLen] at hb

theorem optFactorSum_bounds {α : Type} (o : Option α) (f : α → ℚ) (B w : ℚ)
    (hw : 0 ≤ w) (hB : 0 ≤ B) (hf : ∀ x, 0 ≤ f x ∧ f x ≤ B) :
    0 ≤ ((o.map (fun v => f v * w)).toList).sum ∧
      ((o.map (fun v => f v * w)).toList).sum ≤ B * w := by
  cases o with
  | none =>
    simp only [Option.map_none', Option.toList_none, List.sum_nil]
    exact ⟨le_refl 0, mul_nonneg hB hw⟩
  | some x =>
    simp only [Option.map_some', Option.toList_some, List.sum_cons, List.sum_nil, add_zero]
    exact ⟨mul_nonneg (hf x).1 hw, mul_le_mul_of_nonneg_right (hf x).2 hw⟩

theorem mobile_body_spec (c s : Value) (r : Bool × ℚ × ℚ)
    (h : BehavioralAnalyzer.verifyMatchBody c s = some r) :
    (0 ≤ r.2.1 ∧ r.2.1 ≤ 17/20) ∧
    r.2.2 = (if (BehavioralAnalyzer._detect_anomalies c s).isEmpty
             then max 0 (1 - r.2.1)
             else min 1 (max 0 (1 - r.2.1) +
               ((BehavioralAnalyzer._detect_anomalies c s).length : ℚ) * (2/10))) := by
  rw [BehavioralAnalyzer.verifyMatchBody] at h
  split at h
  · simp at h
  rename_i o1 heq1
  split at h
  · simp at h
  rename_i o2 heq2
  split at h
  · simp at h
  rename_i o3 heq3
  simp only [Option.some.injEq] at h
  subst h
  have b1 := optFactorSum_bounds o1
    (fun tv => BehavioralAnalyzer._verify_typing_pattern tv s) (7/10) (5/10)
    (by norm_num) (by norm_num) (fun x => verify_typing_range x s)
  have b2 := optFactorSum_bounds o2
    (fun tv => BehavioralAnalyzer._verify_touch_patterns tv s) 1 (3/10)
    (by norm_num) (by norm_num) (fun x => verify_touch_range x s)
  have b3 := optFactorSum_bounds o3
    (fun dv => BehavioralAnalyzer._verify_device dv s) 1 (2/10)
    (by norm_num) (by norm_num) (fun x => verify_device_range x s)
  constructor
  · dsimp only
    rw [List.sum_append, List.sum_append]
    split
    · norm_num
    · constructor
      · linarith [b1.1, b2.1, b3.1]
      · linarith [b1.2, b2.2, b3.2]
  · dsimp only

theorem web_body_spec (c s : Value) (r : Bool × ℚ × ℚ)
    (h : WebBehaviorAnalyzer.verifyWebBody c s = some r) :
    (0 ≤ r.2.1 ∧ r.2.1 ≤ 22/25) ∧
    r.2.2 = (if (WebBehaviorAnalyzer._detect_web_anomalies c s).isEmpty
             then max 0 (1 - r.2.1)
             else min 1 (max 0 (1 - r.2.1) +
               ((WebBehaviorAnalyzer._detect_web_anomalies c s).length : ℚ) * (15/100))) := by
  rw [WebBehaviorAnalyzer.verifyWebBody] at h
  split at h
  · simp at h
  rename_i o1 heq1
  split at h
  · simp at h
  rename_i o2 heq2
  split at h
  · simp at h
  rename_i o3 heq3
  split at h
  · simp at h
  rename_i o4 heq4
  simp only [Option.some.injEq] at h
  subst h
  have b1 := optFactorSum_bounds o1
    (fun p : Value × Value => WebBehaviorAnalyzer._verify_mouse_patterns p.1 p.2) (7/10) (4/10)
    (by norm_num) (by norm_num) (fun x => verify_mouse_range x.1 x.2)
  have b2 := optFactorSum_bounds o2
    (fun p : Value × Value => WebBehaviorAnalyzer._verify_web_typing p.1 p.2) 1 (3/10)
    (by norm_num) (by norm_num) (fun x => verify_webtyping_range x.1 x.2)
  have b3 := optFactorSum_bounds o3
    (fun p : Value × Value => WebBehaviorAnalyzer._verify_scroll_behavior p.1 p.2) 1 (2/10)
    (by norm_num) (by norm_num) (fun x => verify_scroll_range x.1 x.2)
  have b4 := optFactorSum_bounds o4
    (fun p : Value × Value => WebBehaviorAnalyzer._verify_browser_fingerprint p.1 p.2) 1 (1/10)
    (by norm_num) (by norm_num) (fun x => verify_browser_range x.1 x.2)
  constructor
  · dsimp only
    rw [List.sum_append, List.sum_append, List.sum_append]
    split
    · norm_num
    · constructor
      · linarith [b1.1, b2.1, b3.1, b4.1]
      · linarith [b1.2, b2.2, b3.2, b4.2]
  · dsimp only

/-- C2: for every current sample and stored profile, both the confidence and
the risk returned by `verify_behavioral_match` (mobile) and
`verify_web_behavior` (web) lie in the interval [0,1]: the weighted channel
sum is bounded (each channel score is in [0,1] — typing in [0,0.7] — and the
weights sum below 1), and the risk is clamped below by 0 and above by 1 after
the anomaly penalty. -/
theorem claim_C2_confidence_risk_bounds (c s : Value) :
    (0 ≤ (BehavioralAnalyzer.verify_behavioral_match c s).2.1 ∧
     (BehavioralAnalyzer.verify_behavioral_match c s).2.1 ≤ 1) ∧
    (0 ≤ (BehavioralAnalyzer.verify_behavioral_match c s).2.2 ∧
     (BehavioralAnalyzer.verify_behavioral_match c s).2.2 ≤ 1) ∧
    (0 ≤ (WebBehaviorAnalyzer.verify_web_behavior c s).2.1 ∧
     (WebBehaviorAnalyzer.verify_web_behavior c s).2.1 ≤ 1) ∧
    (0 ≤ (WebBehaviorAnalyzer.verify_web_behavior c s).2.2 ∧
     (WebBehaviorAnalyzer.verify_web_behavior c s).2.2 ≤ 1) := by
  have hmb : ∀ r : Bool × ℚ × ℚ, BehavioralAnalyzer.verifyMatchBody c s = some r →
      (0 ≤ r.2.1 ∧ r.2.1 ≤ 1) ∧ (0 ≤ r.2.2 ∧ r.2.2 ≤ 1) := by
    intro r h
    obtain ⟨⟨h0, h1⟩, hrisk⟩ := mobile_body_spec c s r h
    refine ⟨⟨h0, h1.trans (by norm_num)⟩, ?_, ?_⟩
    · rw [hrisk]
      split
      · exact le_max_left 0 _
      · exact le_min (by norm_num) (add_nonneg (le_max_left 0 _) (by positivity))
    · rw [hrisk]
      split
      · exact max_le (by norm_num) (by linarith)
      · exact min_le_left 1 _
  have hwb : ∀ r : Bool × ℚ × ℚ, WebBehaviorAnalyzer.verifyWebBody c s = some r →
      (0 ≤ r.2.1 ∧ r.2.1 ≤ 1) ∧ (0 ≤ r.2.2 ∧ r.2.2 ≤ 1) := by
    intro r h
    obtain ⟨⟨h0, h1⟩, hrisk⟩ := web_body_spec c s r h
    refine ⟨⟨h0, h1.trans (by norm_num)⟩, ?_, ?_⟩
    · rw [hrisk]
      split
      · exact le_max_left 0 _
      · exact le_min (by norm_num) (add_nonneg (le_max_left 0 _) (by positivity))
    · rw [hrisk]
      split
      · exact max_le (by norm_num) (by linarith)
      · exact min_le_left 1 _
  have hm : (0 ≤ (BehavioralAnalyzer.verify_behavioral_match c s).2.1 ∧
      (BehavioralAnalyzer.verify_behavioral_match c s).2.1 ≤ 1) ∧
      (0 ≤ (BehavioralAnalyzer.verify_behavioral_match c s).2.2 ∧
      (BehavioralAnalyzer.verify_behavioral_match c s).2.2 ≤ 1) := by
    cases hb : BehavioralAnalyzer.verifyMatchBody c s with
    | none =>
      rw [BehavioralAnalyzer.verify_behavioral_match, hb]
      exact ⟨⟨le_refl 0, zero_le_one⟩, zero_le_one, le_refl 1⟩
    | some r =>
      rw [BehavioralAnalyzer.verify_behavioral_match, hb]
      exact hmb r hb
  have hw : (0 ≤ (WebBehaviorAnalyzer.verify_web_behavior c s).2.1 ∧
      (WebBehaviorAnalyzer.verify_web_behavior c s).2.1 ≤ 1) ∧
      (0 ≤ (WebBehaviorAnalyzer.verify_web_behavior c s).2.2 ∧
      (WebBehaviorAnalyzer.verify_web_behavior c s).2.2 ≤ 1) := by
    cases hb : WebBehaviorAnalyzer.verifyWebBody c s with
    | none =>
      rw [WebBehaviorAnalyzer.verify_web_behavior, hb]
      exact ⟨⟨le_refl 0, zero_le_one⟩, zero_le_one, le_refl 1⟩
    | some r =>
      rw [WebBehaviorAnalyzer.verify_web_behavior, hb]
      exact hwb r hb
  exact ⟨hm.1, hm.2, hw.1, hw.2⟩

/-- C5: on the no-exception path, the risk score equals
`clamp(1 - confidence + penalty * |anomalies|, 0, 1)` with a penalty of 0.2
per anomaly tag on the mobile path and 0.15 per tag on the web path. -/
theorem claim_C5_anomaly_penalty (c s : Value) :
    (∀ r : Bool × ℚ × ℚ, BehavioralAnalyzer.verifyMatchBody c s = some r →
      r.2.2 = max 0 (min 1 (1 - r.2.1 +
        ((BehavioralAnalyzer._detect_anomalies c s).length : ℚ) * (2/10)))) ∧
    (∀ r : Bool × ℚ × ℚ, WebBehaviorAnalyzer.verifyWebBody c s = some r →
      r.2.2 = max 0 (min 1 (1 - r.2.1 +
        ((WebBehaviorAnalyzer._detect_web_anomalies c s).length : ℚ) * (15/100)))) := by
  constructor
  · intro r h
    obtain ⟨⟨h0, h1⟩, hrisk⟩ := mobile_body_spec c s r h
    have hc0 : 0 ≤ 1 - r.2.1 := by linarith
    rw [hrisk]
    split
    · rename_i he
      have hnil : BehavioralAnalyzer._detect_anomalies c s = [] := by
        simpa using he
      rw [hnil]
      simp only [List.length_nil, Nat.cast_zero, zero_mul, add_zero]
      rw [max_eq_right hc0, min_eq_right (by linarith), max_eq_right hc0]
    · have hx : 0 ≤ 1 - r.2.1 +
          ((BehavioralAnalyzer._detect_anomalies c s).length : ℚ) * (2/10) :=
        add_nonneg hc0 (by positivity)
      rw [max_eq_right hc0, max_eq_right (le_min zero_le_one hx)]
  · intro r h
    obtain ⟨⟨h0, h1⟩, hrisk⟩ := web_body_spec c s r h
    have hc0 : 0 ≤ 1 - r.2.1 := by linarith
    rw [hrisk]
    split
    · rename_i he
      have hnil : WebBehaviorAnalyzer._detect_web_anomalies c s = [] := by
        simpa using he
      rw [hnil]
      simp only [List.length_nil, Nat.cast_zero, zero_mul, add_zero]
      rw [max_eq_right hc0, min_eq_right (by linarith), max_eq_right hc0]
    · have hx : 0 ≤ 1 - r.2.1 +
          ((WebBehaviorAnalyzer._detect_web_anomalies c s).length : ℚ) * (15/100) :=
        add_nonneg hc0 (by positivity)
      rw [max_eq_right hc0, max_eq_right (le_min zero_le_one hx)]

/-- Witness for C5 at the empty current sample and empty stored profile: the
mobile path has no anomalies (risk `1 = clamp(1 - 0 + 0, 0, 1)`), the web path
has the one `browser_fingerprint_mismatch` anomaly
(risk `1 = clamp(1 - 0 + 0.15, 0, 1)`). -/
theorem claim_C5_anomaly_penalty_witness :
    (BehavioralAnalyzer.verifyMatchBody (.dict []) (.dict []) = some (false, 0, 1) ∧
     ((false, 0, 1) : Bool × ℚ × ℚ).2.2 =
       max 0 (min 1 (1 - ((false, 0, 1) : Bool × ℚ × ℚ).2.1 +
         ((BehavioralAnalyzer._detect_anomalies (.dict []) (.dict [])).length : ℚ) * (2/10)))) ∧
    (WebBehaviorAnalyzer.verifyWebBody (.dict []) (.dict []) = some (false, 0, 1) ∧
     ((false, 0, 1) : Bool × ℚ × ℚ).2.2 =
       max 0 (min 1 (1 - ((false, 0, 1) : Bool × ℚ × ℚ).2.1 +
         ((WebBehaviorAnalyzer._detect_web_anomalies (.dict [])
             (.dict [])).length : ℚ) * (15/100)))) := by
  have g1 : BehavioralAnalyzer.typingGuard (.dict []) (.dict []) = some none := rfl
  have g2 : BehavioralAnalyzer.touchGuard (.dict []) (.dict []) = some none := rfl
  have g3 : BehavioralAnalyzer.deviceGuard (.dict []) = some none := rfl
  have han : BehavioralAnalyzer._detect_anomalies (.dict []) (.dict []) = [] := rfl
  have hbodyM : BehavioralAnalyzer.verifyMatchBody (.dict []) (.dict []) =
      some (false, 0, 1) := by
    rw [BehavioralAnalyzer.verifyMatchBody, g1, g2, g3]
    simp only [Option.map_none', Option.toList_none, List.append_nil, List.isEmpty_nil,
      if_true, han]
    rw [decide_eq_false (by norm_num : ¬ ((7:ℚ)/10 ≤ 0))]
    norm_num
  have w1 : WebBehaviorAnalyzer.mouseGuard (.dict []) (.dict []) = some none := rfl
  have w2 : WebBehaviorAnalyzer.keystrokeGuard (.dict []) (.dict []) = some none := rfl
  have w3 : WebBehaviorAnalyzer.scrollGuard (.dict []) (.dict []) = some none := rfl
  have w4 : WebBehaviorAnalyzer.browserGuard (.dict []) (.dict []) = some none := rfl
  have hanW : WebBehaviorAnalyzer._detect_web_anomalies (.dict []) (.dict []) =
      ["browser_fingerprint_mismatch"] := by
    rw [WebBehaviorAnalyzer._detect_web_anomalies]
    have e1 : (Value.dict []).getD "mouse_movements" (.list []) = some (.list []) := rfl
    rw [e1]
    dsimp only
    have e2 : (WebBehaviorAnalyzer._extract_mouse_features (.list [])).mouse_speed_std =
        none := rfl
    rw [e2]
    dsimp only
    have e3 : (Value.dict []).getD "browser_info" (.dict []) = some (.dict []) := rfl
    rw [e3]
    dsimp only
    have e4 : (Value.dict []).getD "browser_fingerprint" (.dict []) = some (.dict []) := rfl
    rw [e4]
    dsimp only
    have e5 : WebBehaviorAnalyzer._verify_browser_fingerprint (.dict []) (.dict []) = 0 := rfl
    rw [e5]
    simp only [show ((0:ℚ) < 3/10) = True by norm_num, if_true, List.nil_append]
  have hbodyW : WebBehaviorAnalyzer.verifyWebBody (.dict []) (.dict []) =
      some (false, 0, 1) := by
    rw [WebBehaviorAnalyzer.verifyWebBody, w1, w2, w3, w4]
    simp only [Option.map_none', Option.toList_none, List.append_nil, List.isEmpty_nil,
      if_true, hanW, List.isEmpty_cons, List.length_cons, List.length_nil]
    rw [decide_eq_false (by norm_num : ¬ ((65:ℚ)/100 ≤ 0))]
    norm_num
  exact ⟨⟨hbodyM, (claim_C5_anomaly_penalty (.dict []) (.dict [])).1 _ hbodyM⟩,
         ⟨hbodyW, (claim_C5_anomaly_penalty (.dict []) (.dict [])).2 _ hbodyW⟩⟩

theorem pyEq_str (a b : String) : pyEq (.str a) (.str b) = (a == b) := rfl

theorem any_pyEq_str_iff (a : String) (acc : List Value)
    (h : ∀ v ∈ acc, ∃ s, v = Value.str s) :
    (acc.any (pyEq (Value.str a)) = true) ↔ Value.str a ∈ acc := by
  induction acc with
  | nil => simp
  | cons x xs ih =>
    obtain ⟨s, rfl⟩ := h x (List.mem_cons_self x xs)
    have ihx := ih (fun v hv => h v (List.mem_cons_of_mem _ hv))
    simp [List.any_cons, ihx, pyEq_str, Value.str.injEq]

theorem pyInsert_mem (acc : List Value) (a : String)
    (hacc : ∀ v ∈ acc, ∃ s, v = Value.str s)
    (hm : Value.str a ∈ acc) : pyInsert acc (.str a) = acc := by
  rw [pyInsert, if_pos ((any_pyEq_str_iff a acc hacc).mpr hm)]

theorem pyInsert_not_mem (acc : List Value) (a : String)
    (hacc : ∀ v ∈ acc, ∃ s, v = Value.str s)
    (hm : Value.str a ∉ acc) : pyInsert acc (.str a) = acc ++ [Value.str a] := by
  rw [pyInsert, if_neg (fun hc => hm ((any_pyEq_str_iff a acc hacc).mp hc))]

theorem foldl_pyInsert_spec :
    ∀ (l : List Value), (∀ v ∈ l, ∃ s, v = Value.str s) →
    ∀ (acc : List Value), (∀ v ∈ acc, ∃ s, v = Value.str s) →
      (∀ v ∈ List.foldl pyInsert acc l, ∃ s, v = Value.str s) ∧
      (∀ v, v ∈ List.foldl pyInsert acc l ↔ v ∈ acc ∨ v ∈ l) ∧
      (acc.Nodup → (List.foldl pyInsert acc l).Nodup) ∧
      ((∀ v ∈ l, v ∈ acc) → List.foldl pyInsert acc l = acc) := by
  intro l
  induction l with
  | nil =>
    intro _ acc hacc
    refine ⟨hacc, ?_, fun h => h, fun _ => rfl⟩
    intro v
    simp
  | cons x xs ih =>
    intro hl acc hacc
    obtain ⟨a, rfl⟩ := hl x (List.mem_cons_self x xs)
    have hxs : ∀ v ∈ xs, ∃ s, v = Value.str s := fun v hv => hl v (List.mem_cons_of_mem _ hv)
    by_cases hm : Value.str a ∈ acc
    · have he : List.foldl pyInsert acc (Value.str a :: xs) = List.foldl pyInsert acc xs := by
        rw [List.foldl_cons, pyInsert_mem acc a hacc hm]
      obtain ⟨p1, p2, p3, p4⟩ := ih hxs acc hacc
      rw [he]
      refine ⟨p1, ?_, p3, ?_⟩
      · intro v
        rw [p2 v, List.mem_cons]
        constructor
        · rintro (h | h)
          · exact Or.inl h
          · exact Or.inr (Or.inr h)
        · rintro (h | rfl | h)
          · exact Or.inl h
          · exact Or.inl hm
          · exact Or.inr h
      · intro hsub
        exact p4 (fun v hv => hsub v (List.mem_cons_of_mem _ hv))
    · have hacc2 : ∀ v ∈ acc ++ [Value.str a], ∃ s, v = Value.str s := by
        intro v hv
        rcases List.mem_append.mp hv with h | h
        · exact hacc v h
        · exact ⟨a, by simpa using h⟩
      have he : List.foldl pyInsert acc (Value.str a :: xs) =
          List.foldl pyInsert (acc ++ [Value.str a]) xs := by
        rw [List.foldl_cons, pyInsert_not_mem acc a hacc hm]
      obtain ⟨p1, p2, p3, p4⟩ := ih hxs (acc ++ [Value.str a]) hacc2
      rw [he]
      refine ⟨p1, ?_, ?_, ?_⟩
      · intro v
        rw [p2 v]
        simp only [List.mem_append, List.mem_singleton, List.mem_cons]
        tauto
      · intro hnd
        refine p3 ?_
        simp [List.nodup_append, hnd, hm]
      · intro hsub
        exact (hm (hsub (Value.str a) (List.mem_cons_self _ _))).elim

theorem foldl_pyInsert_of_nodup :
    ∀ (l : List Value), (∀ v ∈ l, ∃ s, v = Value.str s) →
    ∀ (acc : List Value), (∀ v ∈ acc, ∃ s, v = Value.str s) →
      l.Nodup → (∀ v ∈ l, v ∉ acc) → List.foldl pyInsert acc l = acc ++ l := by
  intro l
  induction l with
  | nil => intro _ acc _ _ _; simp
  | cons x xs ih =>
    intro hl acc hacc hnd hdisj
    obtain ⟨a, rfl⟩ := hl x (List.mem_cons_self x xs)
    have hxs : ∀ v ∈ xs, ∃ s, v = Value.str s := fun v hv => hl v (List.mem_cons_of_mem _ hv)
    have hacc2 : ∀ v ∈ acc ++ [Value.str a], ∃ s, v = Value.str s := by
      intro v hv
      rcases List.mem_append.mp hv with h | h
      · exact hacc v h
      · exact ⟨a, by simpa using h⟩
    have hdisj2 : ∀ v ∈ xs, v ∉ acc ++ [Value.str a] := by
      intro v hv hvin
      rcases List.mem_append.mp hvin with h | h
      · exact hdisj v (List.mem_cons_of_mem _ hv) h
      · rw [List.mem_singleton] at h
        subst h
        exact (List.nodup_cons.mp hnd).1 hv
    rw [List.foldl_cons, pyInsert_not_mem acc a hacc (hdisj _ (List.mem_cons_self _ _)),
      ih hxs (acc ++ [Value.str a]) hacc2 (List.nodup_cons.mp hnd).2 hdisj2]
    simp

theorem mem_truthyVals (key : String) :
    ∀ (l : List Value) (v : Value), v ∈ truthyVals key l →
      ∃ x ∈ l, x.getN key = some v ∧ v.truthy = true := by
  intro l
  induction l with
  | nil => intro v hv; simp [truthyVals] at hv
  | cons x xs ih =>
    intro v hv
    rw [truthyVals] at hv
    cases hg : x.getN key with
    | none =>
      rw [hg] at hv
      obtain ⟨y, hy, hp⟩ := ih v hv
      exact ⟨y, List.mem_cons_of_mem _ hy, hp⟩
    | some w =>
      rw [hg] at hv
      dsimp only at hv
      by_cases ht : w.truthy = true
      · rw [if_pos ht] at hv
        rcases List.mem_cons.mp hv with rfl | h2
        · exact ⟨x, List.mem_cons_self _ _, hg, ht⟩
        · obtain ⟨y, hy, hp⟩ := ih v h2
          exact ⟨y, List.mem_cons_of_mem _ hy, hp⟩
      · rw [if_neg ht] at hv
        obtain ⟨y, hy, hp⟩ := ih v hv
        exact ⟨y, List.mem_cons_of_mem _ hy, hp⟩

theorem mem_dcDeviceIds :
    ∀ (l : List Value) (v : Value), v ∈ dcDeviceIds l →
      ∃ dc ∈ l, dc.getN "device_id" = some v ∧ v.truthy = true := by
  intro l
  induction l with
  | nil => intro v hv; simp [dcDeviceIds] at hv
  | cons x xs ih =>
    intro v hv
    rw [dcDeviceIds] at hv
    cases hg : x.getN "device_id" with
    | none =>
      rw [hg] at hv
      obtain ⟨y, hy, hp⟩ := ih v hv
      exact ⟨y, List.mem_cons_of_mem _ hy, hp⟩
    | some w =>
      rw [hg] at hv
      dsimp only at hv
      by_cases ht : w.truthy = true
      · rw [if_pos ht] at hv
        rcases List.mem_cons.mp hv with rfl | h2
        · exact ⟨x, List.mem_cons_self _ _, hg, ht⟩
        · obtain ⟨y, hy, hp⟩ := ih v h2
          exact ⟨y, List.mem_cons_of_mem _ hy, hp⟩
      · rw [if_neg ht] at hv
        obtain ⟨y, hy, hp⟩ := ih v hv
        exact ⟨y, List.mem_cons_of_mem _ hy, hp⟩

theorem batchDeviceIds_strings (batch : List Value)
    (hwf : ∀ x ∈ batch, WellFormedSample x) :
    ∀ v ∈ batchDeviceIds batch, ∃ s, v = Value.str s := by
  intro v hv
  obtain ⟨dc, hdc, hgn, hvt⟩ := mem_dcDeviceIds _ v hv
  obtain ⟨x, hx, hxg, hdct⟩ := mem_truthyVals _ _ dc hdc
  exact ((hwf x hx).2 dc hxg hdct).2 v hgn hvt

theorem samplesComp_eq_truthyVals (key : String) :
    ∀ (l : List Value), (∀ x ∈ l, x.isDict = true) →
      BehavioralAnalyzer.samplesComp key l = some (truthyVals key l) := by
  intro l
  induction l with
  | nil => intro _; rfl
  | cons x xs ih =>
    intro h
    have hx := h x (List.mem_cons_self x xs)
    have hxs := ih (fun v hv => h v (List.mem_cons_of_mem _ hv))
    cases x with
    | null => simp [Value.isDict] at hx
    | bool b => simp [Value.isDict] at hx
    | num q => simp [Value.isDict] at hx
    | str s => simp [Value.isDict] at hx
    | list l2 => simp [Value.isDict] at hx
    | dict d =>
      rw [BehavioralAnalyzer.samplesComp, truthyVals]
      cases hl : lookupFirst key d with
      | none =>
        have hgn : (Value.dict d).getN key = some Value.null := by
          show some ((lookupFirst key d).getD Value.null) = some Value.null
          rw [hl]
          rfl
        rw [hgn]
        dsimp only
        rw [show Value.null.truthy = false from rfl]
        simp only [Bool.false_eq_true, if_false]
        exact hxs
      | some v =>
        have hgn : (Value.dict d).getN key = some v := by
          show some ((lookupFirst key d).getD Value.null) = some v
          rw [hl]
          rfl
        have hgd : (Value.dict d).getD key (.dict []) = some v := by
          show some ((lookupFirst key d).getD (Value.dict [])) = some v
          rw [hl]
          rfl
        rw [hgn]
        dsimp only
        cases ht : v.truthy with
        | false =>
          simp only [Bool.false_eq_true, if_false]
          exact hxs
        | true =>
          simp only [if_true]
          rw [hgd]
          dsimp only
          rw [hxs]

theorem updLoop_spec :
    ∀ (ds : List Value),
      (∀ dc ∈ ds, dc.isDict = true ∧
        ∀ did, dc.getN "device_id" = some did → did.truthy = true →
          ∃ s, did = Value.str s) →
    ∀ (acc : List Value), (∀ v ∈ acc, ∃ s, v = Value.str s) →
      BehavioralAnalyzer.updLoop acc ds =
        some (List.foldl pyInsert acc (dcDeviceIds ds)) := by
  intro ds
  induction ds with
  | nil => intro _ acc _; rfl
  | cons dc rest ih =>
    intro hds acc hacc
    obtain ⟨hdict, hdid⟩ := hds dc (List.mem_cons_self _ _)
    have hrest := fun x hx => hds x (List.mem_cons_of_mem _ hx)
    cases dc with
    | null => simp [Value.isDict] at hdict
    | bool b => simp [Value.isDict] at hdict
    | num q => simp [Value.isDict] at hdict
    | str s => simp [Value.isDict] at hdict
    | list l2 => simp [Value.isDict] at hdict
    | dict d =>
      rw [BehavioralAnalyzer.updLoop, dcDeviceIds]
      cases hl : lookupFirst "device_id" d with
      | none =>
        have hgn : (Value.dict d).getN "device_id" = some Value.null := by
          show some ((lookupFirst "device_id" d).getD Value.null) = some Value.null
          rw [hl]
          rfl
        rw [hgn]
        dsimp only
        rw [show Value.null.truthy = false from rfl]
        simp only [Bool.false_eq_true, if_false]
        exact ih hrest acc hacc
      | some did =>
        have hgn : (Value.dict d).getN "device_id" = some did := by
          show some ((lookupFirst "device_id" d).getD Value.null) = some did
          rw [hl]
          rfl
        rw [hgn]
        dsimp only
        cases ht : did.truthy with
        | false =>
          simp only [Bool.false_eq_true, if_false]
          exact ih hrest acc hacc
        | true =>
          obtain ⟨s, rfl⟩ := hdid did hgn ht
          simp only [if_true]
          rw [show (Value.str s).hashable = true from rfl]
          simp only [if_true]
          have hacc2 : ∀ v ∈ pyInsert acc (Value.str s), ∃ t, v = Value.str t := by
            rw [pyInsert]
            split
            · exact hacc
            · intro v hv
              rcases List.mem_append.mp hv with h | h
              · exact hacc v h
              · exact ⟨s, by simpa using h⟩
          have hrec := ih hrest (pyInsert acc (Value.str s)) hacc2
          rw [List.foldl_cons]
          exact hrec

theorem lookupFirst_setKey_self (d : Entries) (k : String) (v : Value) :
    lookupFirst k (BehavioralAnalyzer.setKey d k v) = some v := by
  induction d with
  | nil => simp [BehavioralAnalyzer.setKey, lookupFirst]
  | cons e es ih =>
    rw [BehavioralAnalyzer.setKey]
    by_cases h : e.1 = k
    · rw [if_pos h, lookupFirst, if_pos rfl]
    · rw [if_neg h, lookupFirst, if_neg h, ih]

theorem lookupFirst_setKey_ne (d : Entries) (k k2 : String) (v : Value) (h : k2 ≠ k) :
    lookupFirst k2 (BehavioralAnalyzer.setKey d k v) = lookupFirst k2 d := by
  have hnk : ¬ (((k, v) : String × Value).1 = k2) := fun hc => h hc.symm
  induction d with
  | nil =>
    simp only [BehavioralAnalyzer.setKey, lookupFirst, if_neg hnk]
  | cons e es ih =>
    by_cases he : e.1 = k
    · have hek : ¬ (e.1 = k2) := fun hc => h (hc ▸ he)
      simp only [BehavioralAnalyzer.setKey, if_pos he, lookupFirst, if_neg hnk, if_neg hek]
    · by_cases h2 : e.1 = k2
      · simp only [BehavioralAnalyzer.setKey, if_neg he, lookupFirst, if_pos h2]
      · simp only [BehavioralAnalyzer.setKey, if_neg he, lookupFirst, if_neg h2]
        exact ih

theorem update_profile_spec (d : Entries) (tds : List Value) (n : ℚ) (batch : List Value)
    (htd : lookupFirst "trusted_devices" d = some (.list tds))
    (hsc : lookupFirst "samples_collected" d = some (.num n))
    (hstr : ∀ v ∈ tds, ∃ s, v = Value.str s)
    (hwf : ∀ x ∈ batch, WellFormedSample x) :
    ∃ (d1 : Entries) (t1 : List Value),
      BehavioralAnalyzer.update_biometric_profile (.dict d) batch = .dict d1 ∧
      lookupFirst "trusted_devices" d1 = some (.list t1) ∧
      lookupFirst "samples_collected" d1 = some (.num (n + batch.length)) ∧
      (∀ v ∈ t1, ∃ s, v = Value.str s) ∧
      (∀ v, v ∈ t1 ↔ v ∈ tds ∨ v ∈ batchDeviceIds batch) ∧
      ((truthyVals "device_characteristics" batch = [] ∧ t1 = tds) ∨
       (truthyVals "device_characteristics" batch ≠ [] ∧ t1.Nodup ∧
        t1 = List.foldl pyInsert (List.foldl pyInsert [] tds) (batchDeviceIds batch))) := by
  cases batch with
  | nil =>
    refine ⟨d, tds, rfl, htd, ?_, hstr, ?_, Or.inl ⟨rfl, rfl⟩⟩
    · simpa using hsc
    · intro v
      simp [batchDeviceIds, truthyVals, dcDeviceIds]
  | cons b0 bs =>
    have hdicts : ∀ x ∈ (b0 :: bs), Value.isDict x = true := fun x hx => (hwf x hx).1
    have hC1 := samplesComp_eq_truthyVals "typing_pattern" (b0 :: bs) hdicts
    have hC2 := samplesComp_eq_truthyVals "touch_patterns" (b0 :: bs) hdicts
    have hC3 := samplesComp_eq_truthyVals "device_characteristics" (b0 :: bs) hdicts
    have hdsprops : ∀ dc ∈ truthyVals "device_characteristics" (b0 :: bs),
        dc.isDict = true ∧ ∀ did, dc.getN "device_id" = some did → did.truthy = true →
          ∃ s, did = Value.str s := by
      intro dc hdc
      obtain ⟨x, hx, hxg, hdct⟩ := mem_truthyVals _ _ dc hdc
      exact (hwf x hx).2 dc hxg hdct
    have hnilstr : ∀ v ∈ ([] : List Value), ∃ s, v = Value.str s := by
      intro v hv
      exact absurd hv (List.not_mem_nil v)
    obtain ⟨q1, q2, q3, q4⟩ := foldl_pyInsert_spec tds hstr [] hnilstr
    have hids_str := batchDeviceIds_strings (b0 :: bs) hwf
    obtain ⟨r1, r2, r3, r4⟩ := foldl_pyInsert_spec (batchDeviceIds (b0 :: bs)) hids_str
      (List.foldl pyInsert [] tds) q1
    cases hds : truthyVals "device_characteristics" (b0 :: bs) with
    | nil =>
      have hids0 : batchDeviceIds (b0 :: bs) = [] := by
        rw [batchDeviceIds, hds]
        rfl
      refine ⟨BehavioralAnalyzer.setKey d "samples_collected"
          (.num (n + ((b0 :: bs).length : ℚ))), tds, ?_, ?_, ?_, hstr, ?_, Or.inl ⟨rfl, rfl⟩⟩
      · rw [BehavioralAnalyzer.update_biometric_profile]
        rw [show (b0 :: bs).isEmpty = false from rfl]
        simp only [Bool.false_eq_true, if_false]
        rw [hC1]
        dsimp only
        simp only [BehavioralAnalyzer._update_typing_profile, ite_self]
        rw [hC2]
        dsimp only
        simp only [BehavioralAnalyzer._update_touch_profile, ite_self]
        rw [hC3]
        dsimp only
        rw [hds]
        simp only [List.isEmpty_nil, Bool.not_true, Bool.false_eq_true, if_false]
        have hs1 : (Value.dict d).sub "samples_collected" = some (.num n) := hsc
        rw [hs1]
        dsimp only
        rw [show (Value.num n).toNum = some n from rfl]
        rfl
      · rw [lookupFirst_setKey_ne d "samples_collected" "trusted_devices" _ (by decide)]
        exact htd
      · exact lookupFirst_setKey_self d "samples_collected" _
      · intro v
        simp [hids0]
    | cons dc0 dcs =>
      have hdev : BehavioralAnalyzer._update_device_profile (Value.dict d)
          (truthyVals "device_characteristics" (b0 :: bs)) =
          some (.dict (BehavioralAnalyzer.setKey d "trusted_devices"
            (.list (List.foldl pyInsert (List.foldl pyInsert [] tds)
              (batchDeviceIds (b0 :: bs)))))) := by
        rw [BehavioralAnalyzer._update_device_profile]
        have hgd : (Value.dict d).getD "trusted_devices" (.list []) = some (.list tds) := by
          show some ((lookupFirst "trusted_devices" d).getD (Value.list [])) = some (.list tds)
          rw [htd]
          rfl
        rw [hgd]
        dsimp only
        have hset : BehavioralAnalyzer.pySetOfList (.list tds) =
            some (List.foldl pyInsert [] tds) := by
          rw [BehavioralAnalyzer.pySetOfList]
          have hall : tds.all Value.hashable = true := by
            rw [List.all_eq_true]
            intro v hv
            obtain ⟨s, rfl⟩ := hstr v hv
            rfl
          dsimp only [Value.pyIter]
          rw [hall]
          rfl
        rw [hset]
        dsimp only
        rw [updLoop_spec (truthyVals "device_characteristics" (b0 :: bs)) hdsprops
          (List.foldl pyInsert [] tds) q1]
        rfl
      refine ⟨BehavioralAnalyzer.setKey
          (BehavioralAnalyzer.setKey d "trusted_devices"
            (.list (List.foldl pyInsert (List.foldl pyInsert [] tds)
              (batchDeviceIds (b0 :: bs)))))
          "samples_collected" (.num (n + ((b0 :: bs).length : ℚ))),
        List.foldl pyInsert (List.foldl pyInsert [] tds) (batchDeviceIds (b0 :: bs)),
        ?_, ?_, ?_, r1, ?_,
        Or.inr ⟨List.cons_ne_nil _ _, r3 (q3 List.nodup_nil), rfl⟩⟩
      · rw [BehavioralAnalyzer.update_biometric_profile]
        rw [show (b0 :: bs).isEmpty = false from rfl]
        simp only [Bool.false_eq_true, if_false]
        rw [hC1]
        dsimp only
        simp only [BehavioralAnalyzer._update_typing_profile, ite_self]
        rw [hC2]
        dsimp only
        simp only [BehavioralAnalyzer._update_touch_profile, ite_self]
        rw [hC3]
        dsimp only
        have hne2 : (truthyVals "device_characteristics" (b0 :: bs)).isEmpty = false := by
          rw [hds]
          rfl
        rw [hne2]
        simp only [Bool.not_false, if_true]
        rw [hdev]
        dsimp only
        have hs2 : (Value.dict (BehavioralAnalyzer.setKey d "trusted_devices"
            (.list (List.foldl pyInsert (List.foldl pyInsert [] tds)
              (batchDeviceIds (b0 :: bs)))))).sub "samples_collected" = some (.num n) := by
          show lookupFirst "samples_collected" (BehavioralAnalyzer.setKey d "trusted_devices"
            (.list (List.foldl pyInsert (List.foldl pyInsert [] tds)
              (batchDeviceIds (b0 :: bs))))) = some (.num n)
          rw [lookupFirst_setKey_ne d "trusted_devices" "samples_collected" _ (by decide)]
          exact hsc
        rw [hs2]
        dsimp only
        rw [show (Value.num n).toNum = some n from rfl]
        rfl
      · rw [lookupFirst_setKey_ne _ "samples_collected" "trusted_devices" _ (by decide)]
        exact lookupFirst_setKey_self d "trusted_devices" _
      · exact lookupFirst_setKey_self _ "samples_collected" _
      · intro v
        rw [r2 v, q2 v]
        simp only [List.not_mem_nil, false_or]

/-- C8: on a dict profile carrying a string list of trusted devices and a
numeric sample count, `update_biometric_profile` unions the truthy device ids
of the batch into `trusted_devices` (membership-wise) and increments
`samples_collected` by the batch size; re-applying the same batch leaves the
`trusted_devices` list identical (the device-set union is idempotent) while
`samples_collected` grows by the batch size again (the count increment is not
idempotent). -/
theorem claim_C8_profile_update (d : Entries) (tds : List Value) (n : ℚ) (batch : List Value)
    (htd : lookupFirst "trusted_devices" d = some (.list tds))
    (hsc : lookupFirst "samples_collected" d = some (.num n))
    (hstr : ∀ v ∈ tds, ∃ s, v = Value.str s)
    (hwf : ∀ x ∈ batch, WellFormedSample x) :
    ∃ (d1 d2 : Entries) (t1 : List Value),
      BehavioralAnalyzer.update_biometric_profile (.dict d) batch = .dict d1 ∧
      lookupFirst "trusted_devices" d1 = some (.list t1) ∧
      (∀ v, v ∈ t1 ↔ v ∈ tds ∨ v ∈ batchDeviceIds batch) ∧
      lookupFirst "samples_collected" d1 = some (.num (n + batch.length)) ∧
      BehavioralAnalyzer.update_biometric_profile (.dict d1) batch = .dict d2 ∧
      lookupFirst "trusted_devices" d2 = some (.list t1) ∧
      lookupFirst "samples_collected" d2 =
        some (.num (n + batch.length + batch.length)) := by
  obtain ⟨d1, t1, h1u, h1t, h1s, h1str, h1mem, h1form⟩ :=
    update_profile_spec d tds n batch htd hsc hstr hwf
  obtain ⟨d2, t2, h2u, h2t, h2s, h2str, h2mem, h2form⟩ :=
    update_profile_spec d1 t1 (n + batch.length) batch h1t h1s h1str hwf
  have ht21 : t2 = t1 := by
    rcases h1form with ⟨hds1, h1eq⟩ | ⟨hds1, hnd1, h1eq⟩
    · rcases h2form with ⟨_, h2eq⟩ | ⟨hds2, _, _⟩
      · exact h2eq
      · exact absurd hds1 hds2
    · rcases h2form with ⟨hds2, _⟩ | ⟨_, _, h2eq⟩
      · exact absurd hds2 hds1
      · have hdedup : List.foldl pyInsert [] t1 = t1 := by
          have hd := foldl_pyInsert_of_nodup t1 h1str [] (fun v hv =>
            absurd hv (List.not_mem_nil v)) hnd1 (fun v _ hv =>
              absurd hv (List.not_mem_nil v))
          simpa using hd
        have hsub : ∀ v ∈ batchDeviceIds batch, v ∈ t1 :=
          fun v hv => (h1mem v).mpr (Or.inr hv)
        have hnoop := (foldl_pyInsert_spec (batchDeviceIds batch)
          (batchDeviceIds_strings batch hwf) t1 h1str).2.2.2 hsub
        rw [h2eq, hdedup, hnoop]
  refine ⟨d1, d2, t1, h1u, h1t, h1mem, h1s, h2u, ?_, h2s⟩
  rw [← ht21]
  exact h2t

/-- Witness for C8: profile with one trusted device `"a"` and 3 collected
samples; a one-sample batch contributing device id `"b"`. -/
theorem claim_C8_profile_update_witness :
    ∃ (d1 d2 : Entries) (t1 : List Value),
      BehavioralAnalyzer.update_biometric_profile
        (.dict [("trusted_devices", .list [.str "a"]), ("samples_collected", .num 3)])
        [.dict [("device_characteristics", .dict [("device_id", .str "b")])]] = .dict d1 ∧
      lookupFirst "trusted_devices" d1 = some (.list t1) ∧
      (∀ v, v ∈ t1 ↔ v ∈ [Value.str "a"] ∨ v ∈ batchDeviceIds
        [.dict [("device_characteristics", .dict [("device_id", .str "b")])]]) ∧
      lookupFirst "samples_collected" d1 = some (.num (3 +
        ([Value.dict [("device_characteristics",
          Value.dict [("device_id", Value.str "b")])]].length : ℚ))) ∧
      BehavioralAnalyzer.update_biometric_profile (.dict d1)
        [.dict [("device_characteristics", .dict [("device_id", .str "b")])]] = .dict d2 ∧
      lookupFirst "trusted_devices" d2 = some (.list t1) ∧
      lookupFirst "samples_collected" d2 = some (.num (3 +
        ([Value.dict [("device_characteristics",
          Value.dict [("device_id", Value.str "b")])]].length : ℚ) +
        ([Value.dict [("device_characteristics",
          Value.dict [("device_id", Value.str "b")])]].length : ℚ))) :=
  claim_C8_profile_update
    [("trusted_devices", .list [.str "a"]), ("samples_collected", .num 3)]
    [Value.str "a"] 3
    [.dict [("device_characteristics", .dict [("device_id", .str "b")])]]
    rfl rfl
    (by
      intro v hv
      rw [List.mem_singleton] at hv
      exact ⟨"a", hv⟩)
    (by
      intro x hx
      rw [List.mem_singleton] at hx
      subst hx
      refine ⟨rfl, ?_⟩
      intro dc hdc _
      have h := hdc
      rw [show (Value.dict [("device_characteristics",
          Value.dict [("device_id", Value.str "b")])]).getN "device_characteristics" =
        some (Value.dict [("device_id", Value.str "b")]) from rfl] at h
      injection h with h2
      subst h2
      refine ⟨rfl, ?_⟩
      intro did hdid _
      have h := hdid
      rw [show (Value.dict [("device_id", Value.str "b")]).getN "device_id" =
        some (Value.str "b") from rfl] at h
      injection h with h3
      exact ⟨"b", h3.symm⟩)
